import Mathlib

/-!
Shallow embedding of the multi-stage analysis orchestration pipeline of the
FilmSet application (source: src/App.tsx and the AI service module
src/unnamed/part_000), together with theorems checking the specification's
claims about it.

The generative-AI backend is opaque and fallible; we model the outcome of
each backend call by an environment supplying, for each call the code can
make, either a successful value or a thrown error.  Asynchronous suspension
(await) happens exactly at the backend calls, so the mutable stop flag
(`shouldStopRef`) can only change value across those calls; we model it as a
schedule `stop : Nat → Bool` giving the flag's value when the orchestrator
reads it after `n` completed stage-steps of the current run.
-/

namespace Filmset

/-- A thrown JS error as inspected by the code: `message`, the first
available numeric code among `error.status / error.error?.code /
error.response?.status`, and the first available status text among
`error.statusText / error.error?.status / error.response?.statusText`
(src/unnamed/part_000 lines 24-27). -/
structure Err where
  message : String
  code : Option Nat := none
  statusText : String := ""
  deriving DecidableEq, Repr

/-- Whether `pat` occurs as a contiguous run inside `l`. -/
def containsSub (pat : List Char) : List Char → Bool
  | [] => pat.isEmpty
  | c :: t => pat.isPrefixOf (c :: t) || containsSub pat t

/-- JS `String.prototype.includes`: `pat` occurs as a substring of `s`. -/
def includes (s pat : String) : Bool :=
  containsSub pat.data s.data

/-- The source's blankness test `!scriptText.trim()`: the trimmed string is
empty exactly when every character is whitespace. -/
def isBlank (s : String) : Bool :=
  s.data.all (fun c => c.isWhitespace)

/-- Classification of an error as a rate-limit signature
(src/unnamed/part_000 lines 29-31). -/
def isRateLimitSig (e : Err) : Bool :=
  includes e.message "429" || includes e.message "RESOURCE_EXHAUSTED" || e.code == some 429

/-- Classification of an error as a server-overload / internal-server-error
signature (src/unnamed/part_000 lines 33-40). -/
def isServerOverloadSig (e : Err) : Bool :=
  includes e.message "503" || includes e.message "UNAVAILABLE" ||
  includes e.message "overloaded" || includes e.message "500" ||
  includes e.message "Internal Server Error" ||
  e.code == some 503 || e.code == some 500 ||
  includes e.statusText "Internal Server Error"

/-- An error is transient iff it carries a rate-limit or server-overload
signature (the condition of the retry in src/unnamed/part_000 line 42). -/
def isTransientErr (e : Err) : Bool :=
  isRateLimitSig e || isServerOverloadSig e

/-- Result of running `retryWithBackoff`: the final outcome, the total
number of invocations of the wrapped operation, and the list of delays
slept (in ms, in order). -/
structure RetryRun (α : Type) where
  result : Except Err α
  attempts : Nat
  delays : List Nat
  deriving Repr

/-- `retryWithBackoff` (src/unnamed/part_000 lines 15-49).  The impure
`operation` is modelled as a function from the invocation index (0-based) to
that invocation's outcome.  `attempt` is the index of the next invocation;
the initial call passes 0. -/
def retryWithBackoff (operation : Nat → Except Err α) (attempt : Nat)
    (retries : Nat) (delay : Nat) (factor : Nat) : RetryRun α :=
  match operation attempt with
  | .ok v => ⟨.ok v, 1, []⟩
  | .error e =>
    -- the source retries when `retries > 0 && (isRateLimit || isServerOverload)`
    match retries with
    | r + 1 =>
      if isTransientErr e then
        let deeper := retryWithBackoff operation (attempt + 1) r (delay * factor) factor
        ⟨deeper.result, deeper.attempts + 1, delay :: deeper.delays⟩
      else ⟨.error e, 1, []⟩
    | 0 => ⟨.error e, 1, []⟩

/-- `retryWithBackoff` with the source's default arguments
`retries = 4, delay = 2000, factor = 2`. -/
def retryWithBackoffDefault (operation : Nat → Except Err α) : RetryRun α :=
  retryWithBackoff operation 0 4 2000 2

/-! ## Data model (src/types.ts) -/

/-- `AnalysisStatus` (src/types.ts). -/
inductive AnalysisStatus
  | IDLE
  | ANALYZING_STAGE_1
  | ANALYZING_STAGE_2
  | ANALYZING_STAGE_2_VISUALS
  | ANALYZING_STAGE_3
  | PAUSED
  | COMPLETE
  | ERROR
  deriving DecidableEq, Repr

/-- `Scene` (src/types.ts). -/
structure Scene where
  scene_number : Nat
  setting : String
  summary : String
  deriving DecidableEq, Repr

/-- `Act` (src/types.ts). -/
structure Act where
  act_number : Nat
  title : String
  scene_breakdown : List Scene
  deriving DecidableEq, Repr

/-- `Character` (src/types.ts); `screen_presence` is the string
`"on-screen"` or `"off-screen"`. -/
structure Character where
  name : String
  description : String
  screen_presence : String
  deriving DecidableEq, Repr

/-- The nested `synopsis` object of `Stage1Result` (src/types.ts). -/
structure Synopsis where
  brief : String
  extended : String
  deriving DecidableEq, Repr

/-- The nested `integrity_check` object of `Stage1Result` (src/types.ts). -/
structure IntegrityCheck where
  issues_found : Bool
  details : String
  deriving DecidableEq, Repr

/-- `Stage1Result` (src/types.ts). -/
structure Stage1Result where
  page_count : Nat
  logline : String
  acts : List Act
  characters : List Character
  synopsis : Synopsis
  integrity_check : IntegrityCheck
  deriving DecidableEq, Repr

/-- `CharacterProfile` (src/types.ts): a `Character` plus arc, motivation
and an optional generated portrait. -/
structure CharacterProfile where
  name : String
  description : String
  screen_presence : String
  arc : String
  motivation : String
  image_base64 : Option String := none
  deriving DecidableEq, Repr

/-- `Theme` (src/types.ts). -/
structure ThemeMotif where
  theme : String
  prominence : Nat
  deriving DecidableEq, Repr

/-- An element of `comparable_titles_visuals` (src/types.ts). -/
structure CompVisual where
  title : String
  image_base64 : String
  deriving DecidableEq, Repr

/-- The nested `final_rating` object of `Stage2Result` (src/types.ts). -/
structure FinalRating where
  score : Nat
  justification : String
  deriving DecidableEq, Repr

/-- `Stage2Result` (src/types.ts).  The TS-optional fields
(`comparable_titles_visuals`, `visual_style_images_base64`,
`concept_art_base64`, `movie_poster_base64`) are `Option`s, absent until a
visuals merge populates them. -/
structure Stage2Result where
  title : String
  author : String
  genre : String
  tone : String
  tone_and_mood_details : String
  logline : String
  world_and_setting : String
  character_profiles : List CharacterProfile
  treatment : String
  themes_and_motifs : List ThemeMotif
  comparable_titles : List String
  comparable_titles_visuals : Option (List CompVisual) := none
  target_audience : String
  visual_style_suggestion : String
  visual_style_images_base64 : Option (List String) := none
  final_rating : FinalRating
  completion_checklist : List String
  concept_art_base64 : Option String := none
  movie_poster_base64 : Option String := none
  deriving DecidableEq, Repr

/-- `Department` (src/types.ts). -/
inductive Department
  | ART | WARDROBE | MAKEUP | STUNTS | VFX | SFX
  | LOCATIONS | PROPS | TRANSPORT | CAST | OTHER
  deriving DecidableEq, Repr

/-- `SceneProductionDetail` (src/types.ts); `time_of_day` is one of the
strings `"DAY" | "NIGHT" | "DUSK" | "DAWN"`. -/
structure SceneProductionDetail where
  scene_number : Nat
  page_number : String
  location : String
  time_of_day : String
  estimated_length_eighths : Nat
  summary : String
  deriving DecidableEq, Repr

/-- `CharacterProductionDetail` (src/types.ts); `role_type` is
`"Speaking" | "Extra"`. -/
structure CharacterProductionDetail where
  name : String
  role_type : String
  scene_appearances : List Nat
  deriving DecidableEq, Repr

/-- `LocationProductionDetail` (src/types.ts). -/
structure LocationProductionDetail where
  location : String
  scenes : List Nat
  is_unique : Bool
  deriving DecidableEq, Repr

/-- `ProductionElement` (src/types.ts). -/
structure ProductionElement where
  name : String
  description : String
  department : Department
  deriving DecidableEq, Repr

/-- A day entry of `scheduling_suggestions.shooting_schedule` (src/types.ts). -/
structure ShootingDay where
  day : Nat
  scenes : String
  location : String
  notes : String
  deriving DecidableEq, Repr

/-- The nested `scheduling_suggestions` object of `Stage3Result` (src/types.ts). -/
structure SchedulingSuggestions where
  total_shooting_days : Nat
  shooting_schedule : List ShootingDay
  scene_grouping_suggestions : List String
  cast_scheduling_highlights : List String
  day_night_balance : String
  complexity_flags : List String
  deriving DecidableEq, Repr

/-- An entry of `departmental_notes` (src/types.ts). -/
structure DepartmentalNote where
  department : Department
  notes : String
  deriving DecidableEq, Repr

/-- `Stage3Result` (src/types.ts). -/
structure Stage3Result where
  scene_breakdown : List SceneProductionDetail
  character_breakdown : List CharacterProductionDetail
  location_breakdown : List LocationProductionDetail
  props_and_set_dressing : List ProductionElement
  wardrobe_and_makeup : List ProductionElement
  special_requirements : List ProductionElement
  scheduling_suggestions : SchedulingSuggestions
  departmental_notes : List DepartmentalNote
  risk_assessment : List String
  deriving DecidableEq, Repr

/-- `FullScene` (src/types.ts). -/
structure FullScene where
  scene_number : Nat
  heading : String
  content : String
  deriving DecidableEq, Repr

/-- `Project` (src/types.ts), restricted to the fields the Pipeline
Orchestrator reads or writes.  The tool-specific sub-states
(`storyboardData`, `shotIdeasList`, `imageStudioState`, …) are owned by the
tool components; the orchestration code never touches them, so they are
omitted from the embedding. -/
structure Project where
  id : Option Nat := none
  name : String
  script : String
  stage1Result : Option Stage1Result := none
  stage2Result : Option Stage2Result := none
  stage3Result : Option Stage3Result := none
  fullScenes : Option (List FullScene) := none
  deriving DecidableEq, Repr

/-- `createNewProject` (src/App.tsx lines 24-58), restricted to the
orchestrator-relevant fields. -/
def createNewProject : Project :=
  { name := "Untitled Project"
    script := ""
    stage1Result := none
    stage2Result := none
    stage3Result := none
    fullScenes := none }

/-- The visuals choice `{ poster, concept, characters }` (src/App.tsx line 85). -/
structure VisualOptions where
  poster : Bool
  concept : Bool
  characters : Bool
  deriving DecidableEq, Repr

/-! ## The visuals service (src/unnamed/part_000, `generateAllVisuals`) -/

/-- An element of `character_portraits` as returned by `generateAllVisuals`. -/
structure Portrait where
  name : String
  image_base64 : String
  deriving DecidableEq, Repr

/-- The bundle returned by `generateAllVisuals` (src/unnamed/part_000
lines 743-748). -/
structure VisualsBundle where
  concept_art_base64 : String
  movie_poster_base64 : String
  character_portraits : List Portrait
  comparable_titles_visuals : List CompVisual
  visual_style_images_base64 : List String
  deriving DecidableEq, Repr

/-- Outcomes of the individual image-generation calls made inside
`generateAllVisuals`.  Each field is the final outcome of the whole
`retryWithBackoff`-wrapped call: a success value (possibly `""` / `[]` when
the API returned no image bytes, matching the source's `|| ''` fallbacks) or
the error it propagated.  Per-character and per-title calls are keyed by the
character name / title used in the prompt. -/
structure VisualsEnv where
  conceptArt : Except Err String
  poster : Except Err String
  portrait : String → Except Err String
  compGemini : String → Except Err String
  compImagen : String → Except Err String
  styleImages : Except Err (List String)

/-- The `mainCharacters` selection of `generateAllVisuals`
(src/unnamed/part_000 lines 751-753): on-screen profiles only, first two. -/
def mainCharactersOf (pitchDeckData : Stage2Result) : List CharacterProfile :=
  (pitchDeckData.character_profiles.filter
    (fun c => c.screen_presence == "on-screen")).take 2

/-- `generateAllVisuals` (src/unnamed/part_000 lines 740-911).  Every inner
call sits in its own try/catch, so a failed sub-asset leaves its slot at its
default and the function itself never throws.  Besides the bundle it returns
the list of character names for which a portrait call was issued (second
component), used to state which portrait requests the code makes.  The
`sleep` throttling calls do not affect any returned value and are omitted. -/
def generateAllVisuals (env : VisualsEnv) (pitchDeckData : Stage2Result)
    (options : VisualOptions) : VisualsBundle × List String :=
  let mainCharacters := mainCharactersOf pitchDeckData
  let concept_art_base64 :=
    if options.concept then
      match env.conceptArt with
      | .ok s => s
      | .error _ => ""
    else ""
  let movie_poster_base64 :=
    if options.poster then
      match env.poster with
      | .ok s => s
      | .error _ => ""
    else ""
  -- a portrait is pushed only when the call succeeds AND returned non-empty
  -- image bytes (lines 824-826); a failed call is caught and skipped
  let character_portraits : List Portrait :=
    if options.characters then
      mainCharacters.filterMap (fun c =>
        match env.portrait c.name with
        | .ok s => if s = "" then none else some ⟨c.name, s⟩
        | .error _ => none)
    else []
  let portraitRequests : List String :=
    if options.characters then mainCharacters.map (fun c => c.name) else []
  -- comparable titles: first three, one entry pushed per title even when no
  -- image was produced (line 883); Imagen fallback when the grounded call
  -- failed or returned no image (line 866)
  let comparable_titles_visuals : List CompVisual :=
    if options.poster || options.concept || options.characters then
      (pitchDeckData.comparable_titles.take 3).map (fun title =>
        let fromGemini :=
          match env.compGemini title with
          | .ok s => s
          | .error _ => ""
        let image_base64 :=
          if fromGemini = "" then
            match env.compImagen title with
            | .ok s => s
            | .error _ => ""
          else fromGemini
        ⟨title, image_base64⟩)
    else []
  let visual_style_images_base64 : List String :=
    if options.concept then
      match env.styleImages with
      | .ok l => l
      | .error _ => []
    else []
  (⟨concept_art_base64, movie_poster_base64, character_portraits,
    comparable_titles_visuals, visual_style_images_base64⟩, portraitRequests)

/-! ## Visual-asset merge (src/App.tsx lines 254-265) -/

/-- The field-level patch of a fresh visuals bundle onto the existing
stage-2 result (src/App.tsx lines 254-265): each image field is overwritten
only when the bundle holds a non-empty value for it; portraits are matched
to profiles by character name; the two arrays are replaced only when
non-empty. -/
def mergeVisuals (r2 : Stage2Result) (visuals : VisualsBundle) : Stage2Result :=
  let u1 :=
    if visuals.concept_art_base64 = "" then r2
    else { r2 with concept_art_base64 := some visuals.concept_art_base64 }
  let u2 :=
    if visuals.movie_poster_base64 = "" then u1
    else { u1 with movie_poster_base64 := some visuals.movie_poster_base64 }
  let u3 :=
    if visuals.character_portraits.isEmpty then u2
    else
      { u2 with
        character_profiles := u2.character_profiles.map (fun profile =>
          match visuals.character_portraits.find? (fun p => p.name == profile.name) with
          | some portrait => { profile with image_base64 := some portrait.image_base64 }
          | none => profile) }
  let u4 :=
    if visuals.comparable_titles_visuals.isEmpty then u3
    else { u3 with comparable_titles_visuals := some visuals.comparable_titles_visuals }
  if visuals.visual_style_images_base64.isEmpty then u4
  else { u4 with visual_style_images_base64 := some visuals.visual_style_images_base64 }

/-! ## The orchestrator (src/App.tsx, `executeAnalysis` and its handlers)

`executeAnalysis` issues its backend calls strictly sequentially, each
awaited; we record the calls it starts in a trace.  The mutable stop flag
can change only across awaits, so its observable values form a schedule
indexed by the number of completed stage-steps of the run (each of stage 1,
stage 2, the visuals step and the paired stage-3 step counts as one step;
every flag check in the source reads the value at the current step count). -/

/-- The backend calls `executeAnalysis` can start. -/
inductive GatewayOp
  | stage1
  | stage2
  | visuals
  | stage3
  | extractScenes
  deriving DecidableEq, Repr

/-- Outcomes of the orchestrator-level backend calls: `analyzeStage1`,
`analyzeStage2`, `analyzeStage3`, `extractScenes` (each the final outcome of
its `retryWithBackoff`-wrapped call), plus the environment for the inner
calls of `generateAllVisuals`. -/
structure Env where
  stage1 : Except Err Stage1Result
  stage2 : Except Err Stage2Result
  visuals : VisualsEnv
  stage3 : Except Err Stage3Result
  extractScenes : Except Err (List FullScene)

/-- What a run of `executeAnalysis` leaves behind: the React state it set
(`currentProject`, `status`, `error`) plus the trace of backend calls it
started, the number of completed stage-steps, and the character names for
which portrait calls were issued. -/
structure RunResult where
  currentProject : Option Project
  status : AnalysisStatus
  error : Option String
  trace : List GatewayOp
  steps : Nat
  portraitRequests : List String
  deriving Repr

/-- Accumulator threaded through the stage-steps of one run. -/
structure RunAcc where
  project : Project
  steps : Nat
  trace : List GatewayOp
  portraitRequests : List String
  deriving Repr

/-- Outcome of one stage-step: continue with the updated accumulator, halt
paused (stop flag observed), or halt in error (the failed call's error). -/
inductive StageOut
  | go (acc : RunAcc)
  | pause (acc : RunAcc)
  | failed (acc : RunAcc) (e : Err)
  deriving Repr

/-- `handleError` (src/App.tsx lines 288-311) restricted to `Error`-shaped
values: maps the thrown error to the user-visible message. -/
def handleErrorMessage (e : Err) : String :=
  if includes e.message "429" || includes e.message "RESOURCE_EXHAUSTED" then
    "API quota exceeded. Please check your plan and billing details. For more information, see https://ai.google.dev/gemini-api/docs/rate-limits. To monitor your usage, visit https://ai.dev/usage?tab=rate-limit."
  else if includes e.message "503" || includes e.message "UNAVAILABLE" || includes e.message "overloaded" then
    "The AI model is currently experiencing high demand. Please wait a few moments and try again."
  else
    e.message

/-- Stage 1 (src/App.tsx lines 216-224): skipped when `stage1Result` is
non-null; otherwise check the stop flag, call `analyzeStage1`, merge on
success, halt on failure. -/
def stage1Step (env : Env) (stop : Nat → Bool) (acc : RunAcc) : StageOut :=
  match acc.project.stage1Result with
  | some _ => .go acc
  | none =>
    if stop acc.steps then .pause acc
    else
      match env.stage1 with
      | .error e => .failed { acc with trace := acc.trace ++ [.stage1] } e
      | .ok result1 =>
        .go { acc with
              project := { acc.project with stage1Result := some result1 }
              steps := acc.steps + 1
              trace := acc.trace ++ [.stage1] }

/-- Stage 2 (src/App.tsx lines 227-237): same check-call-merge pattern; the
logline/synopsis context read from `stage1Result` only shapes the prompt, so
it does not appear in the outcome model. -/
def stage2Step (env : Env) (stop : Nat → Bool) (acc : RunAcc) : StageOut :=
  match acc.project.stage2Result with
  | some _ => .go acc
  | none =>
    if stop acc.steps then .pause acc
    else
      match env.stage2 with
      | .error e => .failed { acc with trace := acc.trace ++ [.stage2] } e
      | .ok result2 =>
        .go { acc with
              project := { acc.project with stage2Result := some result2 }
              steps := acc.steps + 1
              trace := acc.trace ++ [.stage2] }

/-- The optional visuals step (src/App.tsx lines 240-270).  The guard is
`needVisuals = options && (poster || concept || characters)` alone: the
source computes `hasSomeVisuals` on line 244 but never uses it.  A failed
sub-asset inside `generateAllVisuals` is caught there, so this step never
fails.  The fresh bundle is patched onto the existing stage-2 result. -/
def visualsStep (env : Env) (options : Option VisualOptions) (stop : Nat → Bool)
    (acc : RunAcc) : StageOut :=
  match options with
  | none => .go acc
  | some o =>
    if o.poster || o.concept || o.characters then
      if stop acc.steps then .pause acc
      else
        match acc.project.stage2Result with
        | none => .go acc
          -- unreachable from `executeAnalysis`: the stage-2 step has ensured
          -- `stage2Result` is populated (the source asserts this with `!`)
        | some r2 =>
          let gv := generateAllVisuals env.visuals r2 o
          .go { project := { acc.project with stage2Result := some (mergeVisuals r2 gv.1) }
                steps := acc.steps + 1
                trace := acc.trace ++ [.visuals]
                portraitRequests := acc.portraitRequests ++ gv.2 }
    else .go acc

/-- The paired stage-3 step (src/App.tsx lines 273-282): `analyzeStage3`
then `extractScenes`, both awaited before a single merge writes
`stage3Result` and `fullScenes` together; a failure of either call halts the
run with neither merged. -/
def stage3Step (env : Env) (stop : Nat → Bool) (acc : RunAcc) : StageOut :=
  match acc.project.stage3Result with
  | some _ => .go acc
  | none =>
    if stop acc.steps then .pause acc
    else
      match env.stage3 with
      | .error e => .failed { acc with trace := acc.trace ++ [.stage3] } e
      | .ok result3 =>
        match env.extractScenes with
        | .error e => .failed { acc with trace := acc.trace ++ [.stage3, .extractScenes] } e
        | .ok fullScenes =>
          .go { acc with
                project := { acc.project with
                             stage3Result := some result3
                             fullScenes := some fullScenes }
                steps := acc.steps + 1
                trace := acc.trace ++ [.stage3, .extractScenes] }

/-- A run halted at a stop-flag check: status `PAUSED`; the error message
was cleared at the start of the run (line 213) and not set since. -/
def pausedResult (acc : RunAcc) : RunResult :=
  ⟨some acc.project, .PAUSED, none, acc.trace, acc.steps, acc.portraitRequests⟩

/-- A run halted by a failed call: `handleError` sets the message and
status `ERROR` (src/App.tsx lines 288-311). -/
def errorResult (acc : RunAcc) (e : Err) : RunResult :=
  ⟨some acc.project, .ERROR, some (handleErrorMessage e), acc.trace, acc.steps,
    acc.portraitRequests⟩

/-- The tail of the stage chain from the stage-3 section on (src/App.tsx
lines 273-284): the paired stage-3 step, then status `COMPLETE`. -/
def stage3Part (env : Env) (stop : Nat → Bool) (acc : RunAcc) : RunResult :=
  match stage3Step env stop acc with
  | .pause acc => pausedResult acc
  | .failed acc e => errorResult acc e
  | .go acc4 =>
    ⟨some acc4.project, .COMPLETE, none, acc4.trace, acc4.steps, acc4.portraitRequests⟩

/-- The tail of the stage chain from the visuals section on (src/App.tsx
lines 240-284). -/
def visualsPart (env : Env) (options : Option VisualOptions) (stop : Nat → Bool)
    (acc : RunAcc) : RunResult :=
  match visualsStep env options stop acc with
  | .pause acc => pausedResult acc
  | .failed acc e => errorResult acc e
  | .go acc3 => stage3Part env stop acc3

/-- The tail of the stage chain from the stage-2 section on (src/App.tsx
lines 227-284). -/
def stage2Part (env : Env) (options : Option VisualOptions) (stop : Nat → Bool)
    (acc : RunAcc) : RunResult :=
  match stage2Step env stop acc with
  | .pause acc => pausedResult acc
  | .failed acc e => errorResult acc e
  | .go acc2 => visualsPart env options stop acc2

/-- The stage chain of `executeAnalysis` (src/App.tsx lines 215-284): run
the four stage-steps in their fixed order, short-circuiting into `PAUSED` at
an observed stop flag and into `ERROR` at a failed call; when the chain runs
off the end, status becomes `COMPLETE` (line 284). -/
def runPipeline (env : Env) (options : Option VisualOptions) (stop : Nat → Bool)
    (acc0 : RunAcc) : RunResult :=
  match stage1Step env stop acc0 with
  | .pause acc => pausedResult acc
  | .failed acc e => errorResult acc e
  | .go acc1 => stage2Part env options stop acc1

/-- `executeAnalysis` (src/App.tsx lines 186-286).  `stop` is the schedule
of values of `shouldStopRef` at the step boundaries of this run.  When
starting fresh, the code clears the stop flag synchronously (line 194)
before the first check, so boundary 0 then reads `false`.  A blank script
returns before touching anything (line 199), leaving state as it was. -/
def executeAnalysis (env : Env) (options : Option VisualOptions) (isResuming : Bool)
    (scriptToAnalyze : String) (currentProject : Option Project)
    (stop : Nat → Bool) (status0 : AnalysisStatus) (error0 : Option String) : RunResult :=
  let stopFlag : Nat → Bool :=
    if isResuming then stop else fun n => decide (0 < n) && stop n
  if isBlank scriptToAnalyze then
    ⟨currentProject, status0, error0, [], 0, []⟩
  else
    let activeProject : Project :=
      match isResuming, currentProject with
      | true, some p => p
      | _, _ => { createNewProject with script := scriptToAnalyze }
    runPipeline env options stopFlag ⟨activeProject, 0, [], []⟩

/-- The slice of App state the orchestration handlers read. -/
structure AppState where
  status : AnalysisStatus
  error : Option String
  currentProject : Option Project
  scriptToAnalyze : String
  visualOptions : Option VisualOptions

/-- `handleAnalysis` (src/App.tsx lines 163-170): validation gate of a
fresh start.  Returns the updated state and whether the visuals-choice
modal was opened (i.e. whether the run may proceed). -/
def handleAnalysis (scriptText : String) (s : AppState) : AppState × Bool :=
  if isBlank scriptText then
    ({ s with error := some "Script content cannot be empty." }, false)
  else
    ({ s with scriptToAnalyze := scriptText }, true)

/-- A fresh `start(sourceText, visualOptions)`: `handleAnalysis` followed —
when validation passed and the user chose `options` in the modal — by
`executeAnalysis(options)` (src/App.tsx lines 793-798). -/
def start (env : Env) (scriptText : String) (options : Option VisualOptions)
    (s : AppState) (stop : Nat → Bool) : RunResult :=
  let hs := handleAnalysis scriptText s
  if hs.2 then
    executeAnalysis env options false hs.1.scriptToAnalyze hs.1.currentProject
      stop hs.1.status hs.1.error
  else
    ⟨hs.1.currentProject, hs.1.status, hs.1.error, [], 0, []⟩

/-- `handleResumeAnalysis` (src/App.tsx lines 179-184): no-op without a
current project; otherwise clears the stop flag (synchronously, so boundary
0 reads `false`) and re-runs `executeAnalysis` with the stored visual
options in resuming mode. -/
def handleResumeAnalysis (env : Env) (s : AppState) (stop : Nat → Bool) : RunResult :=
  match s.currentProject with
  | none => ⟨s.currentProject, s.status, s.error, [], 0, []⟩
  | some _ =>
    executeAnalysis env s.visualOptions true s.scriptToAnalyze s.currentProject
      (fun n => decide (0 < n) && stop n) s.status s.error

/-! ## Concrete sample data for witnesses and counterexamples -/

/-- A rate-limit error as the backend reports it. -/
def rateLimitErr : Err := { message := "429 RESOURCE_EXHAUSTED", code := some 429 }

/-- A non-transient error (e.g. an empty / safety-filtered response). -/
def fatalErr : Err :=
  { message := "Received an empty response from the AI model for Stage 1." }

def sampleCharA : CharacterProfile :=
  { name := "Ada", description := "the lead", screen_presence := "on-screen"
    arc := "rise", motivation := "truth" }

def sampleCharB : CharacterProfile :=
  { name := "Ben", description := "the rival", screen_presence := "on-screen"
    arc := "fall", motivation := "power" }

def sampleCharOff : CharacterProfile :=
  { name := "Voice", description := "narrator", screen_presence := "off-screen"
    arc := "", motivation := "" }

def sampleStage1 : Stage1Result :=
  { page_count := 1, logline := "A man enters a room."
    acts := [], characters := []
    synopsis := ⟨"brief", "extended"⟩
    integrity_check := ⟨false, ""⟩ }

def sampleStage2 : Stage2Result :=
  { title := "Room", author := "N.N.", genre := "Drama", tone := "Tense"
    tone_and_mood_details := "", logline := "A man enters a room."
    world_and_setting := "a room"
    character_profiles := [sampleCharA, sampleCharB]
    treatment := "", themes_and_motifs := []
    comparable_titles := [], target_audience := ""
    visual_style_suggestion := "noir"
    final_rating := ⟨7, "solid"⟩
    completion_checklist := [] }

def sampleStage3 : Stage3Result :=
  { scene_breakdown := [], character_breakdown := [], location_breakdown := []
    props_and_set_dressing := [], wardrobe_and_makeup := [], special_requirements := []
    scheduling_suggestions := ⟨1, [], [], [], "balanced", []⟩
    departmental_notes := [], risk_assessment := [] }

def sampleScenes : List FullScene := [⟨1, "INT. ROOM - DAY", "A man enters."⟩]

/-- A visuals environment in which every image call succeeds. -/
def okVisualsEnv : VisualsEnv :=
  { conceptArt := .ok "CONCEPT", poster := .ok "POSTER"
    portrait := fun _ => .ok "PORTRAIT"
    compGemini := fun _ => .ok "COMP"
    compImagen := fun _ => .ok "COMPFALLBACK"
    styleImages := .ok ["STYLE1"] }

/-- An environment in which every backend call succeeds. -/
def okEnv : Env :=
  { stage1 := .ok sampleStage1, stage2 := .ok sampleStage2
    visuals := okVisualsEnv, stage3 := .ok sampleStage3
    extractScenes := .ok sampleScenes }

/-- The schedule of a stop flag that is never set. -/
def neverStop : Nat → Bool := fun _ => false

/-! ## Unfolding lemmas for the retry policy -/

theorem retryWithBackoff_ok {α : Type} (operation : Nat → Except Err α)
    (attempt r d f : Nat) (v : α) (h : operation attempt = .ok v) :
    retryWithBackoff operation attempt r d f = ⟨.ok v, 1, []⟩ := by
  simp [retryWithBackoff, h]

theorem retryWithBackoff_retry {α : Type} (operation : Nat → Except Err α)
    (attempt r d f : Nat) (e : Err) (h : operation attempt = .error e)
    (ht : isTransientErr e = true) :
    retryWithBackoff operation attempt (r + 1) d f =
      ⟨(retryWithBackoff operation (attempt + 1) r (d * f) f).result,
       (retryWithBackoff operation (attempt + 1) r (d * f) f).attempts + 1,
       d :: (retryWithBackoff operation (attempt + 1) r (d * f) f).delays⟩ := by
  conv_lhs => rw [retryWithBackoff]
  rw [h]
  simp [ht]

theorem retryWithBackoff_exhausted {α : Type} (operation : Nat → Except Err α)
    (attempt d f : Nat) (e : Err) (h : operation attempt = .error e) :
    retryWithBackoff operation attempt 0 d f = ⟨.error e, 1, []⟩ := by
  simp [retryWithBackoff, h]

theorem retryWithBackoff_nontransient {α : Type} (operation : Nat → Except Err α)
    (attempt r d f : Nat) (e : Err) (h : operation attempt = .error e)
    (ht : isTransientErr e = false) :
    retryWithBackoff operation attempt r d f = ⟨.error e, 1, []⟩ := by
  rcases r with _ | r <;> simp [retryWithBackoff, h, ht]

/-- With transient failures on every attempt up to the retry budget, the
wrapped operation is invoked `r + 1` times, the delays slept are
`d, d·f, d·f², …` and the LAST attempt's error is propagated. -/
theorem retryWithBackoff_allTransient {α : Type} (operation : Nat → Except Err α)
    (es : Nat → Err) (a r d f : Nat)
    (h : ∀ k, k ≤ r → operation (a + k) = .error (es (a + k)) ∧
      isTransientErr (es (a + k)) = true) :
    retryWithBackoff operation a r d f =
      ⟨.error (es (a + r)), r + 1, (List.range r).map (fun i => d * f ^ i)⟩ := by
  induction r generalizing a d with
  | zero =>
    have h0 := h 0 (Nat.le_refl 0)
    simp only [Nat.add_zero] at h0 ⊢
    simp [retryWithBackoff_exhausted operation a d f _ h0.1]
  | succ r ih =>
    have h0 := h 0 (Nat.zero_le _)
    simp only [Nat.add_zero] at h0
    rw [retryWithBackoff_retry operation a r d f _ h0.1 h0.2]
    rw [ih (a + 1) (d * f) (fun k hk => by
      have hk1 := h (k + 1) (by omega)
      constructor
      · have : a + 1 + k = a + (k + 1) := by omega
        rw [this]; exact hk1.1
      · have : a + 1 + k = a + (k + 1) := by omega
        rw [this]; exact hk1.2)]
    have harg : a + 1 + r = a + (r + 1) := by omega
    rw [harg]
    refine congrArg₂ _ rfl ?_
    simp only [List.range_succ_eq_map, List.map_cons, List.map_map, pow_zero, Nat.mul_one]
    refine congrArg₂ _ rfl ?_
    refine List.map_congr_left (fun i _ => ?_)
    simp [Function.comp, pow_succ]
    ring

/-- With transient failures before attempt `k` (0-based) and success at
attempt `k` within the retry budget, the retried call succeeds after exactly
`k + 1` invocations. -/
theorem retryWithBackoff_firstOk {α : Type} (operation : Nat → Except Err α)
    (a r d f k : Nat) (v : α) (hk : k ≤ r) (hok : operation (a + k) = .ok v)
    (hfail : ∀ j, j < k → ∃ e, operation (a + j) = .error e ∧ isTransientErr e = true) :
    (retryWithBackoff operation a r d f).result = .ok v ∧
    (retryWithBackoff operation a r d f).attempts = k + 1 := by
  induction k generalizing a r d with
  | zero =>
    simp only [Nat.add_zero] at hok
    rw [retryWithBackoff_ok operation a r d f v hok]
    exact ⟨rfl, rfl⟩
  | succ k ih =>
    obtain ⟨e, he, ht⟩ := hfail 0 (Nat.succ_pos k)
    simp only [Nat.add_zero] at he
    rcases r with _ | r
    · omega
    rw [retryWithBackoff_retry operation a r d f e he ht]
    have step := ih (a + 1) r (d * f) (by omega)
      (by rw [(by omega : a + 1 + k = a + (k + 1))]; exact hok)
      (fun j hj => by
        obtain ⟨e', he', ht'⟩ := hfail (j + 1) (by omega)
        refine ⟨e', ?_, ht'⟩
        rw [(by omega : a + 1 + j = a + (j + 1))]; exact he')
    exact ⟨step.1, by simp [step.2]⟩

/-- `rateLimitErr` is classified transient. -/
theorem rateLimitErr_transient : isTransientErr rateLimitErr = true := by decide

/-- `fatalErr` is classified non-transient. -/
theorem fatalErr_nonTransient : isTransientErr fatalErr = false := by decide

/-- C3 (counterexample): the claimed bound of "4 attempts total" does not
hold: an operation that fails with a rate-limit signature on all of its
first four invocations — which per the claim would exhaust the bound and
propagate the transient error — is invoked a fifth time by
`retryWithBackoff` at its default arguments, and that fifth invocation's
success is returned. -/
theorem retry_fourAttemptBound_counterexample :
    isTransientErr rateLimitErr = true ∧
    (retryWithBackoffDefault
      (fun k => if k < 4 then .error rateLimitErr else .ok (42 : Nat))).attempts = 5 ∧
    (retryWithBackoffDefault
      (fun k => if k < 4 then .error rateLimitErr else .ok (42 : Nat))).result = .ok 42 := by
  exact ⟨by decide, rfl, rfl⟩

/-- C3 (amended): `retryWithBackoff` at its default arguments makes one
initial attempt plus up to 4 retries — 5 attempts total, not 4 — with the
delay doubling on each retry (2000, 4000, 8000, 16000 ms); a non-transient
failure propagates unchanged to the caller with no retry, a transient
failure that persists through all 5 attempts propagates the final attempt's
error unchanged, and a success at any attempt within the budget ends the
loop at that attempt. -/
theorem retry_with_backoff_policy {α : Type} (operation : Nat → Except Err α) :
    (∀ e, operation 0 = .error e → isTransientErr e = false →
      retryWithBackoffDefault operation = ⟨.error e, 1, []⟩) ∧
    (∀ es : Nat → Err,
      (∀ k, k ≤ 4 → operation k = .error (es k) ∧ isTransientErr (es k) = true) →
      retryWithBackoffDefault operation = ⟨.error (es 4), 5, [2000, 4000, 8000, 16000]⟩) ∧
    (∀ k v, k ≤ 4 → operation k = .ok v →
      (∀ j, j < k → ∃ e, operation j = .error e ∧ isTransientErr e = true) →
      (retryWithBackoffDefault operation).result = .ok v ∧
      (retryWithBackoffDefault operation).attempts = k + 1) := by
  refine ⟨?_, ?_, ?_⟩
  · intro e h ht
    exact retryWithBackoff_nontransient operation 0 4 2000 2 e h ht
  · intro es hes
    have := retryWithBackoff_allTransient operation es 0 4 2000 2
      (fun k hk => by simpa using hes k hk)
    simpa using this
  · intro k v hk hok hfail
    exact retryWithBackoff_firstOk operation 0 4 2000 2 k v hk (by simpa using hok)
      (fun j hj => by simpa using hfail j hj)

/-- Witness for `retry_with_backoff_policy` at concrete operations: a
persistently rate-limited operation yields 5 attempts with doubling delays,
and a non-transiently failing operation is not retried. -/
theorem retry_with_backoff_policy_witness :
    retryWithBackoffDefault (fun _ => (.error rateLimitErr : Except Err Nat)) =
      ⟨.error rateLimitErr, 5, [2000, 4000, 8000, 16000]⟩ ∧
    retryWithBackoffDefault (fun _ => (.error fatalErr : Except Err Nat)) =
      ⟨.error fatalErr, 1, []⟩ := by
  constructor
  · exact (retry_with_backoff_policy (fun _ => .error rateLimitErr)).2.1
      (fun _ => rateLimitErr) (fun k _ => ⟨rfl, rateLimitErr_transient⟩)
  · exact (retry_with_backoff_policy (fun _ => .error fatalErr)).1
      fatalErr rfl fatalErr_nonTransient

/-! ## Unfolding lemmas for the stage-steps -/

theorem stage1Step_skip (env : Env) (stop : Nat → Bool) (acc : RunAcc) (v : Stage1Result)
    (h : acc.project.stage1Result = some v) : stage1Step env stop acc = .go acc := by
  simp [stage1Step, h]

theorem stage1Step_stop (env : Env) (stop : Nat → Bool) (acc : RunAcc)
    (h : acc.project.stage1Result = none) (hs : stop acc.steps = true) :
    stage1Step env stop acc = .pause acc := by
  simp [stage1Step, h, hs]

theorem stage1Step_fail (env : Env) (stop : Nat → Bool) (acc : RunAcc) (e : Err)
    (h : acc.project.stage1Result = none) (hs : stop acc.steps = false)
    (he : env.stage1 = .error e) :
    stage1Step env stop acc = .failed { acc with trace := acc.trace ++ [.stage1] } e := by
  simp [stage1Step, h, hs, he]

theorem stage1Step_ok (env : Env) (stop : Nat → Bool) (acc : RunAcc) (v : Stage1Result)
    (h : acc.project.stage1Result = none) (hs : stop acc.steps = false)
    (he : env.stage1 = .ok v) :
    stage1Step env stop acc = .go { acc with
      project := { acc.project with stage1Result := some v }
      steps := acc.steps + 1
      trace := acc.trace ++ [.stage1] } := by
  simp [stage1Step, h, hs, he]

theorem stage2Step_skip (env : Env) (stop : Nat → Bool) (acc : RunAcc) (v : Stage2Result)
    (h : acc.project.stage2Result = some v) : stage2Step env stop acc = .go acc := by
  simp [stage2Step, h]

theorem stage2Step_stop (env : Env) (stop : Nat → Bool) (acc : RunAcc)
    (h : acc.project.stage2Result = none) (hs : stop acc.steps = true) :
    stage2Step env stop acc = .pause acc := by
  simp [stage2Step, h, hs]

theorem stage2Step_fail (env : Env) (stop : Nat → Bool) (acc : RunAcc) (e : Err)
    (h : acc.project.stage2Result = none) (hs : stop acc.steps = false)
    (he : env.stage2 = .error e) :
    stage2Step env stop acc = .failed { acc with trace := acc.trace ++ [.stage2] } e := by
  simp [stage2Step, h, hs, he]

theorem stage2Step_ok (env : Env) (stop : Nat → Bool) (acc : RunAcc) (v : Stage2Result)
    (h : acc.project.stage2Result = none) (hs : stop acc.steps = false)
    (he : env.stage2 = .ok v) :
    stage2Step env stop acc = .go { acc with
      project := { acc.project with stage2Result := some v }
      steps := acc.steps + 1
      trace := acc.trace ++ [.stage2] } := by
  simp [stage2Step, h, hs, he]

theorem visualsStep_none (env : Env) (stop : Nat → Bool) (acc : RunAcc) :
    visualsStep env none stop acc = .go acc := by
  simp [visualsStep]

theorem visualsStep_noFlags (env : Env) (o : VisualOptions) (stop : Nat → Bool) (acc : RunAcc)
    (hf : (o.poster || o.concept || o.characters) = false) :
    visualsStep env (some o) stop acc = .go acc := by
  simp [visualsStep, hf]

theorem visualsStep_stop (env : Env) (o : VisualOptions) (stop : Nat → Bool) (acc : RunAcc)
    (hf : (o.poster || o.concept || o.characters) = true) (hs : stop acc.steps = true) :
    visualsStep env (some o) stop acc = .pause acc := by
  simp [visualsStep, hf, hs]

theorem visualsStep_run (env : Env) (o : VisualOptions) (stop : Nat → Bool) (acc : RunAcc)
    (r2 : Stage2Result)
    (hf : (o.poster || o.concept || o.characters) = true) (hs : stop acc.steps = false)
    (h2 : acc.project.stage2Result = some r2) :
    visualsStep env (some o) stop acc = .go
      { project := { acc.project with
          stage2Result := some (mergeVisuals r2 (generateAllVisuals env.visuals r2 o).1) }
        steps := acc.steps + 1
        trace := acc.trace ++ [.visuals]
        portraitRequests := acc.portraitRequests ++ (generateAllVisuals env.visuals r2 o).2 } := by
  simp [visualsStep, hf, hs, h2]

theorem stage3Step_skip (env : Env) (stop : Nat → Bool) (acc : RunAcc) (v : Stage3Result)
    (h : acc.project.stage3Result = some v) : stage3Step env stop acc = .go acc := by
  simp [stage3Step, h]

theorem stage3Step_stop (env : Env) (stop : Nat → Bool) (acc : RunAcc)
    (h : acc.project.stage3Result = none) (hs : stop acc.steps = true) :
    stage3Step env stop acc = .pause acc := by
  simp [stage3Step, h, hs]

theorem stage3Step_fail3 (env : Env) (stop : Nat → Bool) (acc : RunAcc) (e : Err)
    (h : acc.project.stage3Result = none) (hs : stop acc.steps = false)
    (he : env.stage3 = .error e) :
    stage3Step env stop acc = .failed { acc with trace := acc.trace ++ [.stage3] } e := by
  simp [stage3Step, h, hs, he]

theorem stage3Step_failScenes (env : Env) (stop : Nat → Bool) (acc : RunAcc)
    (v : Stage3Result) (e : Err)
    (h : acc.project.stage3Result = none) (hs : stop acc.steps = false)
    (he : env.stage3 = .ok v) (hsc : env.extractScenes = .error e) :
    stage3Step env stop acc =
      .failed { acc with trace := acc.trace ++ [.stage3, .extractScenes] } e := by
  simp [stage3Step, h, hs, he, hsc]

theorem stage3Step_ok (env : Env) (stop : Nat → Bool) (acc : RunAcc)
    (v : Stage3Result) (sc : List FullScene)
    (h : acc.project.stage3Result = none) (hs : stop acc.steps = false)
    (he : env.stage3 = .ok v) (hsc : env.extractScenes = .ok sc) :
    stage3Step env stop acc = .go { acc with
      project := { acc.project with stage3Result := some v, fullScenes := some sc }
      steps := acc.steps + 1
      trace := acc.trace ++ [.stage3, .extractScenes] } := by
  simp [stage3Step, h, hs, he, hsc]

/-! ## Unfolding lemmas for the pipeline tails -/

theorem stage3Part_skip (env : Env) (stop : Nat → Bool) (acc : RunAcc) (v : Stage3Result)
    (h : acc.project.stage3Result = some v) :
    stage3Part env stop acc =
      ⟨some acc.project, .COMPLETE, none, acc.trace, acc.steps, acc.portraitRequests⟩ := by
  rw [stage3Part, stage3Step_skip env stop acc v h]

theorem stage3Part_stop (env : Env) (stop : Nat → Bool) (acc : RunAcc)
    (h : acc.project.stage3Result = none) (hs : stop acc.steps = true) :
    stage3Part env stop acc = pausedResult acc := by
  rw [stage3Part, stage3Step_stop env stop acc h hs]

theorem stage3Part_fail3 (env : Env) (stop : Nat → Bool) (acc : RunAcc) (e : Err)
    (h : acc.project.stage3Result = none) (hs : stop acc.steps = false)
    (he : env.stage3 = .error e) :
    stage3Part env stop acc =
      errorResult { acc with trace := acc.trace ++ [.stage3] } e := by
  rw [stage3Part, stage3Step_fail3 env stop acc e h hs he]

theorem stage3Part_failScenes (env : Env) (stop : Nat → Bool) (acc : RunAcc)
    (v : Stage3Result) (e : Err)
    (h : acc.project.stage3Result = none) (hs : stop acc.steps = false)
    (he : env.stage3 = .ok v) (hsc : env.extractScenes = .error e) :
    stage3Part env stop acc =
      errorResult { acc with trace := acc.trace ++ [.stage3, .extractScenes] } e := by
  rw [stage3Part, stage3Step_failScenes env stop acc v e h hs he hsc]

theorem stage3Part_ok (env : Env) (stop : Nat → Bool) (acc : RunAcc)
    (v : Stage3Result) (sc : List FullScene)
    (h : acc.project.stage3Result = none) (hs : stop acc.steps = false)
    (he : env.stage3 = .ok v) (hsc : env.extractScenes = .ok sc) :
    stage3Part env stop acc =
      ⟨some { acc.project with stage3Result := some v, fullScenes := some sc },
        .COMPLETE, none, acc.trace ++ [.stage3, .extractScenes], acc.steps + 1,
        acc.portraitRequests⟩ := by
  rw [stage3Part, stage3Step_ok env stop acc v sc h hs he hsc]

theorem visualsPart_none (env : Env) (stop : Nat → Bool) (acc : RunAcc) :
    visualsPart env none stop acc = stage3Part env stop acc := by
  rw [visualsPart, visualsStep_none env stop acc]

theorem visualsPart_noFlags (env : Env) (o : VisualOptions) (stop : Nat → Bool) (acc : RunAcc)
    (hf : (o.poster || o.concept || o.characters) = false) :
    visualsPart env (some o) stop acc = stage3Part env stop acc := by
  rw [visualsPart, visualsStep_noFlags env o stop acc hf]

theorem visualsPart_stop (env : Env) (o : VisualOptions) (stop : Nat → Bool) (acc : RunAcc)
    (hf : (o.poster || o.concept || o.characters) = true) (hs : stop acc.steps = true) :
    visualsPart env (some o) stop acc = pausedResult acc := by
  rw [visualsPart, visualsStep_stop env o stop acc hf hs]

theorem visualsPart_run (env : Env) (o : VisualOptions) (stop : Nat → Bool) (acc : RunAcc)
    (r2 : Stage2Result)
    (hf : (o.poster || o.concept || o.characters) = true) (hs : stop acc.steps = false)
    (h2 : acc.project.stage2Result = some r2) :
    visualsPart env (some o) stop acc = stage3Part env stop
      { project := { acc.project with
          stage2Result := some (mergeVisuals r2 (generateAllVisuals env.visuals r2 o).1) }
        steps := acc.steps + 1
        trace := acc.trace ++ [.visuals]
        portraitRequests := acc.portraitRequests ++ (generateAllVisuals env.visuals r2 o).2 } := by
  rw [visualsPart, visualsStep_run env o stop acc r2 hf hs h2]

theorem stage2Part_skip (env : Env) (options : Option VisualOptions) (stop : Nat → Bool)
    (acc : RunAcc) (v : Stage2Result) (h : acc.project.stage2Result = some v) :
    stage2Part env options stop acc = visualsPart env options stop acc := by
  rw [stage2Part, stage2Step_skip env stop acc v h]

theorem stage2Part_stop (env : Env) (options : Option VisualOptions) (stop : Nat → Bool)
    (acc : RunAcc) (h : acc.project.stage2Result = none) (hs : stop acc.steps = true) :
    stage2Part env options stop acc = pausedResult acc := by
  rw [stage2Part, stage2Step_stop env stop acc h hs]

theorem stage2Part_fail (env : Env) (options : Option VisualOptions) (stop : Nat → Bool)
    (acc : RunAcc) (e : Err) (h : acc.project.stage2Result = none)
    (hs : stop acc.steps = false) (he : env.stage2 = .error e) :
    stage2Part env options stop acc =
      errorResult { acc with trace := acc.trace ++ [.stage2] } e := by
  rw [stage2Part, stage2Step_fail env stop acc e h hs he]

theorem stage2Part_ok (env : Env) (options : Option VisualOptions) (stop : Nat → Bool)
    (acc : RunAcc) (v : Stage2Result) (h : acc.project.stage2Result = none)
    (hs : stop acc.steps = false) (he : env.stage2 = .ok v) :
    stage2Part env options stop acc = visualsPart env options stop { acc with
      project := { acc.project with stage2Result := some v }
      steps := acc.steps + 1
      trace := acc.trace ++ [.stage2] } := by
  rw [stage2Part, stage2Step_ok env stop acc v h hs he]

theorem runPipeline_skip1 (env : Env) (options : Option VisualOptions) (stop : Nat → Bool)
    (acc : RunAcc) (v : Stage1Result) (h : acc.project.stage1Result = some v) :
    runPipeline env options stop acc = stage2Part env options stop acc := by
  rw [runPipeline, stage1Step_skip env stop acc v h]

theorem runPipeline_stop1 (env : Env) (options : Option VisualOptions) (stop : Nat → Bool)
    (acc : RunAcc) (h : acc.project.stage1Result = none) (hs : stop acc.steps = true) :
    runPipeline env options stop acc = pausedResult acc := by
  rw [runPipeline, stage1Step_stop env stop acc h hs]

theorem runPipeline_fail1 (env : Env) (options : Option VisualOptions) (stop : Nat → Bool)
    (acc : RunAcc) (e : Err) (h : acc.project.stage1Result = none)
    (hs : stop acc.steps = false) (he : env.stage1 = .error e) :
    runPipeline env options stop acc =
      errorResult { acc with trace := acc.trace ++ [.stage1] } e := by
  rw [runPipeline, stage1Step_fail env stop acc e h hs he]

theorem runPipeline_ok1 (env : Env) (options : Option VisualOptions) (stop : Nat → Bool)
    (acc : RunAcc) (v : Stage1Result) (h : acc.project.stage1Result = none)
    (hs : stop acc.steps = false) (he : env.stage1 = .ok v) :
    runPipeline env options stop acc = stage2Part env options stop { acc with
      project := { acc.project with stage1Result := some v }
      steps := acc.steps + 1
      trace := acc.trace ++ [.stage1] } := by
  rw [runPipeline, stage1Step_ok env stop acc v h hs he]

/-! ## A full description of the pipeline tails for a run with no stop request -/

/-- `needVisuals` (src/App.tsx line 240). -/
def needVisuals (options : Option VisualOptions) : Bool :=
  match options with
  | some o => o.poster || o.concept || o.characters
  | none => false

/-- Project provenance across the stage-3 tail of a run with no stop
request: earlier stage fields are untouched, and `stage3Result` /
`fullScenes` are written together exactly when the step ran with both calls
succeeding. -/
theorem stage3Part_project (env : Env) (acc : RunAcc) :
    ∃ q, (stage3Part env neverStop acc).currentProject = some q ∧
      q.stage1Result = acc.project.stage1Result ∧
      q.stage2Result = acc.project.stage2Result ∧
      (q.stage3Result = acc.project.stage3Result ∨
        (acc.project.stage3Result = none ∧
          ∃ v, env.stage3 = .ok v ∧ (∃ sc, env.extractScenes = .ok sc) ∧
            q.stage3Result = some v)) ∧
      (q.fullScenes = acc.project.fullScenes ∨
        (acc.project.stage3Result = none ∧ (∃ v, env.stage3 = .ok v) ∧
          ∃ sc, env.extractScenes = .ok sc ∧ q.fullScenes = some sc)) ∧
      (∀ v sc, acc.project.stage3Result = none → env.stage3 = .ok v →
        env.extractScenes = .ok sc →
        q.stage3Result = some v ∧ q.fullScenes = some sc) := by
  rcases h3 : acc.project.stage3Result with _ | v3
  · rcases he3 : env.stage3 with e3 | w3
    · rw [stage3Part_fail3 env neverStop acc e3 h3 rfl he3]
      simp [errorResult, h3, he3]
    · rcases hsc : env.extractScenes with esc | wsc
      · rw [stage3Part_failScenes env neverStop acc w3 esc h3 rfl he3 hsc]
        simp [errorResult, h3, he3, hsc]
      · rw [stage3Part_ok env neverStop acc w3 wsc h3 rfl he3 hsc]
        simp [h3, he3, hsc]
  · rw [stage3Part_skip env neverStop acc v3 h3]
    simp [h3]

/-- Trace facts across the stage-3 tail of a run with no stop request. -/
theorem stage3Part_trace (env : Env) (acc : RunAcc) :
    (∃ t, (stage3Part env neverStop acc).trace = acc.trace ++ t ∧
      List.Sublist t [GatewayOp.stage3, GatewayOp.extractScenes]) ∧
    ((GatewayOp.stage3 ∈ (stage3Part env neverStop acc).trace) ↔
      GatewayOp.stage3 ∈ acc.trace ∨ acc.project.stage3Result = none) ∧
    ((GatewayOp.extractScenes ∈ (stage3Part env neverStop acc).trace) ↔
      GatewayOp.extractScenes ∈ acc.trace ∨
        (acc.project.stage3Result = none ∧ ∃ v, env.stage3 = .ok v)) ∧
    (∀ op, op ≠ GatewayOp.stage3 → op ≠ GatewayOp.extractScenes →
      ((op ∈ (stage3Part env neverStop acc).trace) ↔ op ∈ acc.trace)) := by
  rcases h3 : acc.project.stage3Result with _ | v3
  · rcases he3 : env.stage3 with e3 | w3
    · rw [stage3Part_fail3 env neverStop acc e3 h3 rfl he3]
      refine ⟨⟨[.stage3], rfl, by decide⟩, ?_, ?_, ?_⟩
      · simp [errorResult, h3]
      · simp [errorResult, he3]
      · intro op h3ne hscne
        simp [errorResult, h3ne, hscne]
    · rcases hsc : env.extractScenes with esc | wsc
      · rw [stage3Part_failScenes env neverStop acc w3 esc h3 rfl he3 hsc]
        refine ⟨⟨[.stage3, .extractScenes], rfl, by decide⟩, ?_, ?_, ?_⟩
        · simp [errorResult, h3]
        · simp [errorResult, h3, he3]
        · intro op h3ne hscne
          simp [errorResult, h3ne, hscne]
      · rw [stage3Part_ok env neverStop acc w3 wsc h3 rfl he3 hsc]
        refine ⟨⟨[.stage3, .extractScenes], rfl, by decide⟩, ?_, ?_, ?_⟩
        · simp [h3]
        · simp [h3, he3]
        · intro op h3ne hscne
          simp [h3ne, hscne]
  · rw [stage3Part_skip env neverStop acc v3 h3]
    refine ⟨⟨[], by simp, by decide⟩, ?_, ?_, ?_⟩
    · simp [h3]
    · simp [h3]
    · intro op _ _
      simp

/-- Status facts across the stage-3 tail of a run with no stop request. -/
theorem stage3Part_status (env : Env) (acc : RunAcc) :
    ((stage3Part env neverStop acc).status = .COMPLETE ∨
      (stage3Part env neverStop acc).status = .ERROR) ∧
    ((stage3Part env neverStop acc).status = .COMPLETE ↔
      (acc.project.stage3Result.isSome ∨
        ((∃ v, env.stage3 = .ok v) ∧ ∃ sc, env.extractScenes = .ok sc))) ∧
    ((stage3Part env neverStop acc).error.isSome ↔
      (stage3Part env neverStop acc).status = .ERROR) := by
  rcases h3 : acc.project.stage3Result with _ | v3
  · rcases he3 : env.stage3 with e3 | w3
    · rw [stage3Part_fail3 env neverStop acc e3 h3 rfl he3]
      simp [errorResult, h3, he3]
    · rcases hsc : env.extractScenes with esc | wsc
      · rw [stage3Part_failScenes env neverStop acc w3 esc h3 rfl he3 hsc]
        simp [errorResult, h3, he3, hsc]
      · rw [stage3Part_ok env neverStop acc w3 wsc h3 rfl he3 hsc]
        simp [he3, hsc]
  · rw [stage3Part_skip env neverStop acc v3 h3]
    simp [h3]

/-- Everything the claims need about the tail of a no-stop run from the
visuals section on, when the stage-2 result is present (as the stage-2
section guarantees at this point). -/
theorem visualsPart_spec (env : Env) (opts : Option VisualOptions) (acc : RunAcc)
    (r2 : Stage2Result) (h2 : acc.project.stage2Result = some r2) :
    ∃ q, (visualsPart env opts neverStop acc).currentProject = some q ∧
    q.stage1Result = acc.project.stage1Result ∧
    (needVisuals opts = false → q.stage2Result = some r2) ∧
    (needVisuals opts = true → ∃ o, opts = some o ∧
      q.stage2Result = some (mergeVisuals r2 (generateAllVisuals env.visuals r2 o).1)) ∧
    q.stage2Result.isSome ∧
    (q.stage3Result = acc.project.stage3Result ∨
      (acc.project.stage3Result = none ∧
        ∃ v, env.stage3 = .ok v ∧ (∃ sc, env.extractScenes = .ok sc) ∧
          q.stage3Result = some v)) ∧
    (q.fullScenes = acc.project.fullScenes ∨
      (acc.project.stage3Result = none ∧ (∃ v, env.stage3 = .ok v) ∧
        ∃ sc, env.extractScenes = .ok sc ∧ q.fullScenes = some sc)) ∧
    (∀ v sc, acc.project.stage3Result = none → env.stage3 = .ok v →
      env.extractScenes = .ok sc →
      q.stage3Result = some v ∧ q.fullScenes = some sc) ∧
    (∃ t, (visualsPart env opts neverStop acc).trace = acc.trace ++ t ∧
      List.Sublist t [GatewayOp.visuals, GatewayOp.stage3, GatewayOp.extractScenes]) ∧
    ((GatewayOp.visuals ∈ (visualsPart env opts neverStop acc).trace) ↔
      GatewayOp.visuals ∈ acc.trace ∨ needVisuals opts = true) ∧
    ((GatewayOp.stage3 ∈ (visualsPart env opts neverStop acc).trace) ↔
      GatewayOp.stage3 ∈ acc.trace ∨ acc.project.stage3Result = none) ∧
    ((GatewayOp.extractScenes ∈ (visualsPart env opts neverStop acc).trace) ↔
      GatewayOp.extractScenes ∈ acc.trace ∨
        (acc.project.stage3Result = none ∧ ∃ v, env.stage3 = .ok v)) ∧
    (∀ op, op ≠ GatewayOp.visuals → op ≠ GatewayOp.stage3 →
      op ≠ GatewayOp.extractScenes →
      ((op ∈ (visualsPart env opts neverStop acc).trace) ↔ op ∈ acc.trace)) ∧
    ((visualsPart env opts neverStop acc).status = .COMPLETE ∨
      (visualsPart env opts neverStop acc).status = .ERROR) ∧
    ((visualsPart env opts neverStop acc).status = .COMPLETE ↔
      (acc.project.stage3Result.isSome ∨
        ((∃ v, env.stage3 = .ok v) ∧ ∃ sc, env.extractScenes = .ok sc))) ∧
    ((visualsPart env opts neverStop acc).error.isSome ↔
      (visualsPart env opts neverStop acc).status = .ERROR) := by
  rcases hvis : needVisuals opts with _ | _
  · -- visuals not requested: the visuals section is a no-op
    have hrw : visualsPart env opts neverStop acc = stage3Part env neverStop acc := by
      rcases opts with _ | o
      · exact visualsPart_none env neverStop acc
      · exact visualsPart_noFlags env o neverStop acc (by simpa [needVisuals] using hvis)
    rw [hrw]
    obtain ⟨q, hq, hq1, hq2, hq3, hqsc, hpos⟩ := stage3Part_project env acc
    obtain ⟨⟨t, htr, hsub⟩, hm3, hmsc, hmoth⟩ := stage3Part_trace env acc
    obtain ⟨hs1, hs2, hs3⟩ := stage3Part_status env acc
    refine ⟨q, hq, hq1, fun _ => by rw [hq2, h2], by simp [hvis], by simp [hq2, h2],
      hq3, hqsc, hpos, ⟨t, htr, hsub.cons _⟩, ?_, hm3, hmsc, ?_, hs1, hs2, hs3⟩
    · rw [hmoth .visuals (by decide) (by decide)]
      simp
    · intro op hv h3 hsc
      exact hmoth op h3 hsc
  · -- visuals requested: the step runs and patches the stage-2 result
    obtain ⟨o, ho⟩ : ∃ o, opts = some o := by
      rcases opts with _ | o
      · exact absurd hvis (by decide)
      · exact ⟨o, rfl⟩
    subst ho
    have hf : (o.poster || o.concept || o.characters) = true := by
      simpa [needVisuals] using hvis
    rw [visualsPart_run env o neverStop acc r2 hf rfl h2]
    obtain ⟨q, hq, hq1, hq2, hq3, hqsc, hpos⟩ := stage3Part_project env _
    obtain ⟨⟨t, htr, hsub⟩, hm3, hmsc, hmoth⟩ := stage3Part_trace env _
    obtain ⟨hs1, hs2, hs3⟩ := stage3Part_status env _
    refine ⟨q, hq, hq1, by simp [hvis], fun _ => ⟨o, rfl, by rw [hq2]⟩, by simp [hq2],
      hq3, hqsc, hpos, ⟨.visuals :: t, by rw [htr]; simp, hsub.cons₂ _⟩, ?_, ?_, ?_, ?_,
      hs1, hs2, hs3⟩
    · rw [htr]
      simp [hvis]
    · rw [hm3]
      simp
    · rw [hmsc]
      simp
    · intro op hv h3 hsc
      rw [hmoth op h3 hsc]
      simp [hv]

/-- Everything the claims need about the tail of a no-stop run from the
stage-2 section on. -/
theorem stage2Part_spec (env : Env) (opts : Option VisualOptions) (acc : RunAcc) :
    ∃ q, (stage2Part env opts neverStop acc).currentProject = some q ∧
    q.stage1Result = acc.project.stage1Result ∧
    (∀ v, acc.project.stage2Result = some v → q.stage2Result.isSome) ∧
    (acc.project.stage2Result = none → (∃ e, env.stage2 = .error e) →
      q.stage2Result = none) ∧
    (q.stage3Result = acc.project.stage3Result ∨
      (acc.project.stage3Result = none ∧
        ∃ v, env.stage3 = .ok v ∧ (∃ sc, env.extractScenes = .ok sc) ∧
          q.stage3Result = some v)) ∧
    (q.fullScenes = acc.project.fullScenes ∨
      (acc.project.stage3Result = none ∧ (∃ v, env.stage3 = .ok v) ∧
        ∃ sc, env.extractScenes = .ok sc ∧ q.fullScenes = some sc)) ∧
    ((acc.project.stage2Result.isSome ∨ (∃ w, env.stage2 = .ok w)) →
      ∀ v sc, acc.project.stage3Result = none → env.stage3 = .ok v →
        env.extractScenes = .ok sc →
        q.stage3Result = some v ∧ q.fullScenes = some sc ∧
          (stage2Part env opts neverStop acc).status = .COMPLETE) ∧
    (needVisuals opts = true →
      (acc.project.stage2Result.isSome ∨ (∃ w, env.stage2 = .ok w)) →
      ∃ r2 o, opts = some o ∧
        (acc.project.stage2Result = some r2 ∨
          (acc.project.stage2Result = none ∧ env.stage2 = .ok r2)) ∧
        q.stage2Result = some (mergeVisuals r2 (generateAllVisuals env.visuals r2 o).1)) ∧
    (∃ t, (stage2Part env opts neverStop acc).trace = acc.trace ++ t ∧
      List.Sublist t [GatewayOp.stage2, GatewayOp.visuals, GatewayOp.stage3,
        GatewayOp.extractScenes]) ∧
    ((GatewayOp.stage2 ∈ (stage2Part env opts neverStop acc).trace) ↔
      GatewayOp.stage2 ∈ acc.trace ∨ acc.project.stage2Result = none) ∧
    ((GatewayOp.visuals ∈ (stage2Part env opts neverStop acc).trace) ↔
      GatewayOp.visuals ∈ acc.trace ∨ (needVisuals opts = true ∧
        (acc.project.stage2Result.isSome ∨ ∃ w, env.stage2 = .ok w))) ∧
    ((GatewayOp.stage3 ∈ (stage2Part env opts neverStop acc).trace) ↔
      GatewayOp.stage3 ∈ acc.trace ∨ (acc.project.stage3Result = none ∧
        (acc.project.stage2Result.isSome ∨ ∃ w, env.stage2 = .ok w))) ∧
    ((GatewayOp.extractScenes ∈ (stage2Part env opts neverStop acc).trace) ↔
      GatewayOp.extractScenes ∈ acc.trace ∨ (acc.project.stage3Result = none ∧
        (acc.project.stage2Result.isSome ∨ ∃ w, env.stage2 = .ok w) ∧
        ∃ v, env.stage3 = .ok v)) ∧
    (∀ op, op ≠ GatewayOp.stage2 → op ≠ GatewayOp.visuals →
      op ≠ GatewayOp.stage3 → op ≠ GatewayOp.extractScenes →
      ((op ∈ (stage2Part env opts neverStop acc).trace) ↔ op ∈ acc.trace)) ∧
    ((stage2Part env opts neverStop acc).status = .COMPLETE ∨
      (stage2Part env opts neverStop acc).status = .ERROR) ∧
    ((stage2Part env opts neverStop acc).status = .COMPLETE ↔
      ((acc.project.stage2Result.isSome ∨ (∃ w, env.stage2 = .ok w)) ∧
        (acc.project.stage3Result.isSome ∨
          ((∃ v, env.stage3 = .ok v) ∧ ∃ sc, env.extractScenes = .ok sc)))) ∧
    ((stage2Part env opts neverStop acc).error.isSome ↔
      (stage2Part env opts neverStop acc).status = .ERROR) := by
  rcases h2 : acc.project.stage2Result with _ | v2
  · rcases he2 : env.stage2 with e2 | w2
    · -- stage 2 fails: the run halts in error right here
      rw [stage2Part_fail env opts neverStop acc e2 h2 rfl he2]
      refine ⟨acc.project, rfl, rfl, ?_, ?_, Or.inl rfl, Or.inl rfl, ?_, ?_,
        ⟨[.stage2], rfl, by decide⟩, ?_, ?_, ?_, ?_, ?_, ?_, ?_, ?_⟩
      · intro v hv
        exact Option.noConfusion hv
      · intro _ _
        exact h2
      · intro hp
        rcases hp with hp | ⟨w, hw⟩
        · simp at hp
        · exact Except.noConfusion hw
      · intro _ hp
        rcases hp with hp | ⟨w, hw⟩
        · simp at hp
        · exact Except.noConfusion hw
      · simp [errorResult]
      · simp [errorResult]
      · simp [errorResult]
      · simp [errorResult]
      · intro op hne2 _ _ _
        simp [errorResult, hne2]
      · simp [errorResult]
      · simp [errorResult]
      · simp [errorResult]
    · -- stage 2 succeeds and is merged; continue with the visuals section
      rw [stage2Part_ok env opts neverStop acc w2 h2 rfl he2]
      obtain ⟨q, hq, hq1, hq2f, hq2t, hq2s, hq3, hqsc, hpos, ⟨t, htr, hsub⟩,
        hmv, hm3, hmsc, hmoth, hs1, hs2, hs3⟩ :=
        visualsPart_spec env opts
          { acc with
            project := { acc.project with stage2Result := some w2 }
            steps := acc.steps + 1
            trace := acc.trace ++ [.stage2] } w2 rfl
      refine ⟨q, hq, hq1, ?_, ?_, hq3, hqsc, ?_, ?_,
        ⟨.stage2 :: t, ?_, hsub.cons₂ _⟩, ?_, ?_, ?_, ?_, ?_, hs1, ?_, hs3⟩
      · intro v _
        exact hq2s
      · intro _ hex
        obtain ⟨e, he⟩ := hex
        exact Except.noConfusion he
      · intro _ v sc h3n he3 hsc
        refine ⟨(hpos v sc h3n he3 hsc).1, (hpos v sc h3n he3 hsc).2, ?_⟩
        exact hs2.mpr (Or.inr ⟨⟨v, he3⟩, ⟨sc, hsc⟩⟩)
      · intro hneed _
        obtain ⟨o, ho, hmerge⟩ := hq2t hneed
        exact ⟨w2, o, ho, Or.inr ⟨rfl, rfl⟩, hmerge⟩
      · rw [htr]
        simp
      · rw [hmoth .stage2 (by decide) (by decide) (by decide)]
        simp
      · rw [hmv]
        simp
      · rw [hm3]
        simp
      · rw [hmsc]
        simp
      · intro op hne2 hnev hne3 hnesc
        rw [hmoth op hnev hne3 hnesc]
        simp [hne2]
      · rw [hs2]
        simp
  · -- stage 2 already satisfied: skipped
    rw [stage2Part_skip env opts neverStop acc v2 h2]
    obtain ⟨q, hq, hq1, hq2f, hq2t, hq2s, hq3, hqsc, hpos, ⟨t, htr, hsub⟩,
      hmv, hm3, hmsc, hmoth, hs1, hs2, hs3⟩ :=
      visualsPart_spec env opts acc v2 h2
    refine ⟨q, hq, hq1, ?_, ?_, hq3, hqsc, ?_, ?_, ⟨t, htr, hsub.cons _⟩,
      ?_, ?_, ?_, ?_, ?_, hs1, ?_, hs3⟩
    · intro v _
      exact hq2s
    · intro hn _
      exact Option.noConfusion hn
    · intro _ v sc h3n he3 hsc
      refine ⟨(hpos v sc h3n he3 hsc).1, (hpos v sc h3n he3 hsc).2, ?_⟩
      exact hs2.mpr (Or.inr ⟨⟨v, he3⟩, ⟨sc, hsc⟩⟩)
    · intro hneed _
      obtain ⟨o, ho, hmerge⟩ := hq2t hneed
      exact ⟨v2, o, ho, Or.inl rfl, hmerge⟩
    · rw [hmoth .stage2 (by decide) (by decide) (by decide)]
      simp [h2]
    · rw [hmv]
      simp
    · rw [hm3]
      simp
    · rw [hmsc]
      simp
    · intro op hne2 hnev hne3 hnesc
      exact hmoth op hnev hne3 hnesc
    · rw [hs2]
      simp

/-- The master description of a full no-stop pipeline run started on project
`p` (the shape `executeAnalysis` reaches after its validation guard):
provenance of every project field, exactly which backend operations are
invoked, the order of the trace, and the final status. -/
theorem runPipeline_spec (env : Env) (opts : Option VisualOptions) (p : Project) :
    ∃ q, (runPipeline env opts neverStop ⟨p, 0, [], []⟩).currentProject = some q ∧
    (∀ v, p.stage1Result = some v → q.stage1Result = some v) ∧
    (∀ v, p.stage2Result = some v → q.stage2Result.isSome) ∧
    (∀ v, p.stage3Result = some v → q.stage3Result = some v) ∧
    (∀ v w, p.stage3Result = some v → p.fullScenes = some w → q.fullScenes = some w) ∧
    ((GatewayOp.stage1 ∈ (runPipeline env opts neverStop ⟨p, 0, [], []⟩).trace) ↔
      p.stage1Result = none) ∧
    ((GatewayOp.stage2 ∈ (runPipeline env opts neverStop ⟨p, 0, [], []⟩).trace) ↔
      (p.stage2Result = none ∧ (p.stage1Result.isSome ∨ ∃ v, env.stage1 = .ok v))) ∧
    ((GatewayOp.visuals ∈ (runPipeline env opts neverStop ⟨p, 0, [], []⟩).trace) ↔
      (needVisuals opts = true ∧ (p.stage1Result.isSome ∨ ∃ v, env.stage1 = .ok v) ∧
        (p.stage2Result.isSome ∨ ∃ v, env.stage2 = .ok v))) ∧
    ((GatewayOp.stage3 ∈ (runPipeline env opts neverStop ⟨p, 0, [], []⟩).trace) ↔
      (p.stage3Result = none ∧ (p.stage1Result.isSome ∨ ∃ v, env.stage1 = .ok v) ∧
        (p.stage2Result.isSome ∨ ∃ v, env.stage2 = .ok v))) ∧
    ((GatewayOp.extractScenes ∈ (runPipeline env opts neverStop ⟨p, 0, [], []⟩).trace) ↔
      (p.stage3Result = none ∧ ((p.stage1Result.isSome ∨ ∃ v, env.stage1 = .ok v) ∧
        (p.stage2Result.isSome ∨ ∃ v, env.stage2 = .ok v)) ∧ ∃ v, env.stage3 = .ok v)) ∧
    List.Sublist (runPipeline env opts neverStop ⟨p, 0, [], []⟩).trace
      [GatewayOp.stage1, GatewayOp.stage2, GatewayOp.visuals, GatewayOp.stage3,
        GatewayOp.extractScenes] ∧
    ((runPipeline env opts neverStop ⟨p, 0, [], []⟩).status = .COMPLETE ∨
      (runPipeline env opts neverStop ⟨p, 0, [], []⟩).status = .ERROR) ∧
    ((runPipeline env opts neverStop ⟨p, 0, [], []⟩).status = .COMPLETE ↔
      (((p.stage1Result.isSome ∨ ∃ v, env.stage1 = .ok v) ∧
        (p.stage2Result.isSome ∨ ∃ v, env.stage2 = .ok v)) ∧
        (p.stage3Result.isSome ∨
          ((∃ v, env.stage3 = .ok v) ∧ ∃ sc, env.extractScenes = .ok sc)))) ∧
    ((runPipeline env opts neverStop ⟨p, 0, [], []⟩).error.isSome ↔
      (runPipeline env opts neverStop ⟨p, 0, [], []⟩).status = .ERROR) ∧
    (∀ v sc, p.stage3Result = none → env.stage3 = .ok v → env.extractScenes = .ok sc →
      ((p.stage1Result.isSome ∨ ∃ u, env.stage1 = .ok u) ∧
        (p.stage2Result.isSome ∨ ∃ u, env.stage2 = .ok u)) →
      q.stage3Result = some v ∧ q.fullScenes = some sc ∧
        (runPipeline env opts neverStop ⟨p, 0, [], []⟩).status = .COMPLETE) ∧
    (p.stage3Result = none →
      ((∃ e, env.stage3 = .error e) ∨ ∃ e, env.extractScenes = .error e) →
      q.stage3Result = none ∧ q.fullScenes = p.fullScenes) ∧
    (needVisuals opts = true →
      ((p.stage1Result.isSome ∨ ∃ u, env.stage1 = .ok u) ∧
        (p.stage2Result.isSome ∨ ∃ u, env.stage2 = .ok u)) →
      ∃ r2 o, opts = some o ∧
        (p.stage2Result = some r2 ∨ (p.stage2Result = none ∧ env.stage2 = .ok r2)) ∧
        q.stage2Result = some (mergeVisuals r2 (generateAllVisuals env.visuals r2 o).1)) ∧
    (p.stage1Result = none → (∃ e, env.stage1 = .error e) → q.stage1Result = none) ∧
    (p.stage2Result = none → (∃ e, env.stage2 = .error e) → q.stage2Result = none) := by
  rcases h1 : p.stage1Result with _ | v1
  · rcases he1 : env.stage1 with e1 | w1
    · -- stage 1 fails: the run halts in error immediately
      rw [runPipeline_fail1 env opts neverStop ⟨p, 0, [], []⟩ e1 h1 rfl he1]
      refine ⟨p, rfl, ?_, ?_, ?_, ?_, ?_, ?_, ?_, ?_, ?_, ?_, ?_, ?_, ?_, ?_, ?_, ?_, ?_, ?_⟩
      · intro v hv
        exact Option.noConfusion hv
      · intro v hv
        simp [hv]
      · intro v hv
        exact hv
      · intro v w _ hw
        exact hw
      · simp [errorResult]
      · simp [errorResult]
      · simp [errorResult]
      · simp [errorResult]
      · simp [errorResult]
      · simp [errorResult]
      · simp [errorResult]
      · simp [errorResult]
      · simp [errorResult]
      · intro v sc _ _ _ hp
        simpa using hp.1
      · intro h3n _
        exact ⟨h3n, rfl⟩
      · intro _ hp
        simpa using hp.1
      · intro _ _
        exact h1
      · intro h2n _
        exact h2n
    · -- stage 1 succeeds and is merged; continue with the stage-2 section
      rw [runPipeline_ok1 env opts neverStop ⟨p, 0, [], []⟩ w1 h1 rfl he1]
      obtain ⟨q, hq, hq1, hq2i, hq2n, hq3, hqsc, hpos, hvpos, ⟨t, htr, hsub⟩,
        hm2, hmv, hm3, hmsc, hmoth, hs1, hs2, hs3⟩ := stage2Part_spec env opts
          { project := { p with stage1Result := some w1 }, steps := 0 + 1,
            trace := [] ++ [.stage1], portraitRequests := [] }
      have hq1' : q.stage1Result = some w1 := hq1
      have hq2i' : ∀ v, p.stage2Result = some v → q.stage2Result.isSome = true := hq2i
      have hq2n' : p.stage2Result = none → (∃ e, env.stage2 = .error e) →
          q.stage2Result = none := hq2n
      have hq3' : q.stage3Result = p.stage3Result ∨
          (p.stage3Result = none ∧ ∃ v, env.stage3 = .ok v ∧
            (∃ sc, env.extractScenes = .ok sc) ∧ q.stage3Result = some v) := hq3
      have hqsc' : q.fullScenes = p.fullScenes ∨
          (p.stage3Result = none ∧ (∃ v, env.stage3 = .ok v) ∧
            ∃ sc, env.extractScenes = .ok sc ∧ q.fullScenes = some sc) := hqsc
      have hpos' : (p.stage2Result.isSome ∨ (∃ w, env.stage2 = .ok w)) →
          ∀ v sc, p.stage3Result = none → env.stage3 = .ok v →
            env.extractScenes = .ok sc →
            q.stage3Result = some v ∧ q.fullScenes = some sc ∧
              (stage2Part env opts neverStop
                { project := { p with stage1Result := some w1 }, steps := 0 + 1,
                  trace := [] ++ [.stage1], portraitRequests := [] }).status =
                .COMPLETE := hpos
      have hvpos' : needVisuals opts = true →
          (p.stage2Result.isSome ∨ (∃ w, env.stage2 = .ok w)) →
          ∃ r2 o, opts = some o ∧
            (p.stage2Result = some r2 ∨ (p.stage2Result = none ∧ env.stage2 = .ok r2)) ∧
            q.stage2Result = some (mergeVisuals r2 (generateAllVisuals env.visuals r2 o).1) :=
        hvpos
      have htr' : (stage2Part env opts neverStop
          { project := { p with stage1Result := some w1 }, steps := 0 + 1,
            trace := [] ++ [.stage1], portraitRequests := [] }).trace =
          [GatewayOp.stage1] ++ t := htr
      have hm2' :
          GatewayOp.stage2 ∈ (stage2Part env opts neverStop
            { project := { p with stage1Result := some w1 }, steps := 0 + 1,
              trace := [] ++ [.stage1], portraitRequests := [] }).trace ↔
          GatewayOp.stage2 ∈ [GatewayOp.stage1] ∨ p.stage2Result = none := hm2
      have hmv' :
          GatewayOp.visuals ∈ (stage2Part env opts neverStop
            { project := { p with stage1Result := some w1 }, steps := 0 + 1,
              trace := [] ++ [.stage1], portraitRequests := [] }).trace ↔
          GatewayOp.visuals ∈ [GatewayOp.stage1] ∨ (needVisuals opts = true ∧
            (p.stage2Result.isSome ∨ ∃ w, env.stage2 = .ok w)) := hmv
      have hm3' :
          GatewayOp.stage3 ∈ (stage2Part env opts neverStop
            { project := { p with stage1Result := some w1 }, steps := 0 + 1,
              trace := [] ++ [.stage1], portraitRequests := [] }).trace ↔
          GatewayOp.stage3 ∈ [GatewayOp.stage1] ∨ (p.stage3Result = none ∧
            (p.stage2Result.isSome ∨ ∃ w, env.stage2 = .ok w)) := hm3
      have hmsc' :
          GatewayOp.extractScenes ∈ (stage2Part env opts neverStop
            { project := { p with stage1Result := some w1 }, steps := 0 + 1,
              trace := [] ++ [.stage1], portraitRequests := [] }).trace ↔
          GatewayOp.extractScenes ∈ [GatewayOp.stage1] ∨ (p.stage3Result = none ∧
            (p.stage2Result.isSome ∨ ∃ w, env.stage2 = .ok w) ∧
            ∃ v, env.stage3 = .ok v) := hmsc
      have hs2' : (stage2Part env opts neverStop
          { project := { p with stage1Result := some w1 }, steps := 0 + 1,
            trace := [] ++ [.stage1], portraitRequests := [] }).status = .COMPLETE ↔
          ((p.stage2Result.isSome ∨ (∃ w, env.stage2 = .ok w)) ∧
            (p.stage3Result.isSome ∨
              ((∃ v, env.stage3 = .ok v) ∧ ∃ sc, env.extractScenes = .ok sc))) := hs2
      refine ⟨q, hq, ?_, hq2i', ?_, ?_, ?_, ?_, ?_, ?_, ?_, ?_, hs1, ?_, hs3, ?_, ?_, ?_,
        ?_, hq2n'⟩
      · intro v hv
        exact Option.noConfusion hv
      · intro v hv
        rcases hq3' with h | ⟨hn, _⟩
        · rw [h, hv]
        · rw [hv] at hn
          exact Option.noConfusion hn
      · intro v w hv hw
        rcases hqsc' with h | ⟨hn, _⟩
        · rw [h, hw]
        · rw [hv] at hn
          exact Option.noConfusion hn
      · rw [hmoth .stage1 (by decide) (by decide) (by decide) (by decide)]
        simp
      · rw [hm2']
        simp [he1]
      · rw [hmv']
        simp [he1]
      · rw [hm3']
        simp [he1]
      · rw [hmsc']
        simp [he1]
      · rw [htr']
        exact hsub.cons₂ _
      · rw [hs2']
        simp [he1]
      · intro v sc h3n he3 hsc hp
        exact hpos' hp.2 v sc h3n he3 hsc
      · intro h3n herr
        refine ⟨?_, ?_⟩
        · rcases hq3' with h | ⟨_, v, he3, ⟨sc, hsc⟩, _⟩
          · exact h.trans h3n
          · rcases herr with ⟨e, he⟩ | ⟨e, he⟩
            · rw [he3] at he
              exact Except.noConfusion he
            · rw [hsc] at he
              exact Except.noConfusion he
        · rcases hqsc' with h | ⟨_, ⟨v, he3⟩, sc, hscok, _⟩
          · exact h
          · rcases herr with ⟨e, he⟩ | ⟨e, he⟩
            · rw [he3] at he
              exact Except.noConfusion he
            · rw [hscok] at he
              exact Except.noConfusion he
      · intro hneed hp
        exact hvpos' hneed hp.2
      · intro _ hex
        obtain ⟨e, he⟩ := hex
        exact Except.noConfusion he
  · -- stage 1 already satisfied: skipped
    rw [runPipeline_skip1 env opts neverStop ⟨p, 0, [], []⟩ v1 h1]
    obtain ⟨q, hq, hq1, hq2i, hq2n, hq3, hqsc, hpos, hvpos, ⟨t, htr, hsub⟩,
      hm2, hmv, hm3, hmsc, hmoth, hs1, hs2, hs3⟩ := stage2Part_spec env opts ⟨p, 0, [], []⟩
    have hq1' : q.stage1Result = p.stage1Result := hq1
    have hq2i' : ∀ v, p.stage2Result = some v → q.stage2Result.isSome = true := hq2i
    have hq2n' : p.stage2Result = none → (∃ e, env.stage2 = .error e) →
        q.stage2Result = none := hq2n
    have hq3' : q.stage3Result = p.stage3Result ∨
        (p.stage3Result = none ∧ ∃ v, env.stage3 = .ok v ∧
          (∃ sc, env.extractScenes = .ok sc) ∧ q.stage3Result = some v) := hq3
    have hqsc' : q.fullScenes = p.fullScenes ∨
        (p.stage3Result = none ∧ (∃ v, env.stage3 = .ok v) ∧
          ∃ sc, env.extractScenes = .ok sc ∧ q.fullScenes = some sc) := hqsc
    have hpos' : (p.stage2Result.isSome ∨ (∃ w, env.stage2 = .ok w)) →
        ∀ v sc, p.stage3Result = none → env.stage3 = .ok v →
          env.extractScenes = .ok sc →
          q.stage3Result = some v ∧ q.fullScenes = some sc ∧
            (stage2Part env opts neverStop ⟨p, 0, [], []⟩).status = .COMPLETE := hpos
    have hvpos' : needVisuals opts = true →
        (p.stage2Result.isSome ∨ (∃ w, env.stage2 = .ok w)) →
        ∃ r2 o, opts = some o ∧
          (p.stage2Result = some r2 ∨ (p.stage2Result = none ∧ env.stage2 = .ok r2)) ∧
          q.stage2Result = some (mergeVisuals r2 (generateAllVisuals env.visuals r2 o).1) :=
      hvpos
    have htr' : (stage2Part env opts neverStop ⟨p, 0, [], []⟩).trace = [] ++ t := htr
    have hm2' : GatewayOp.stage2 ∈ (stage2Part env opts neverStop ⟨p, 0, [], []⟩).trace ↔
        GatewayOp.stage2 ∈ ([] : List GatewayOp) ∨ p.stage2Result = none := hm2
    have hmv' : GatewayOp.visuals ∈ (stage2Part env opts neverStop ⟨p, 0, [], []⟩).trace ↔
        GatewayOp.visuals ∈ ([] : List GatewayOp) ∨ (needVisuals opts = true ∧
          (p.stage2Result.isSome ∨ ∃ w, env.stage2 = .ok w)) := hmv
    have hm3' : GatewayOp.stage3 ∈ (stage2Part env opts neverStop ⟨p, 0, [], []⟩).trace ↔
        GatewayOp.stage3 ∈ ([] : List GatewayOp) ∨ (p.stage3Result = none ∧
          (p.stage2Result.isSome ∨ ∃ w, env.stage2 = .ok w)) := hm3
    have hmsc' : GatewayOp.extractScenes ∈
        (stage2Part env opts neverStop ⟨p, 0, [], []⟩).trace ↔
        GatewayOp.extractScenes ∈ ([] : List GatewayOp) ∨ (p.stage3Result = none ∧
          (p.stage2Result.isSome ∨ ∃ w, env.stage2 = .ok w) ∧
          ∃ v, env.stage3 = .ok v) := hmsc
    have hs2' : (stage2Part env opts neverStop ⟨p, 0, [], []⟩).status = .COMPLETE ↔
        ((p.stage2Result.isSome ∨ (∃ w, env.stage2 = .ok w)) ∧
          (p.stage3Result.isSome ∨
            ((∃ v, env.stage3 = .ok v) ∧ ∃ sc, env.extractScenes = .ok sc))) := hs2
    refine ⟨q, hq, ?_, hq2i', ?_, ?_, ?_, ?_, ?_, ?_, ?_, ?_, hs1, ?_, hs3, ?_, ?_, ?_,
      ?_, hq2n'⟩
    · intro v hv
      rw [hq1', h1]
      exact hv
    · intro v hv
      rcases hq3' with h | ⟨hn, _⟩
      · rw [h, hv]
      · rw [hv] at hn
        exact Option.noConfusion hn
    · intro v w hv hw
      rcases hqsc' with h | ⟨hn, _⟩
      · rw [h, hw]
      · rw [hv] at hn
        exact Option.noConfusion hn
    · rw [hmoth .stage1 (by decide) (by decide) (by decide) (by decide)]
      simp
    · rw [hm2']
      simp
    · rw [hmv']
      simp
    · rw [hm3']
      simp
    · rw [hmsc']
      simp
    · rw [htr']
      simp only [List.nil_append]
      exact hsub.trans (by decide)
    · rw [hs2']
      simp [h1]
    · intro v sc h3n he3 hsc hp
      exact hpos' hp.2 v sc h3n he3 hsc
    · intro h3n herr
      refine ⟨?_, ?_⟩
      · rcases hq3' with h | ⟨_, v, he3, ⟨sc, hsc⟩, _⟩
        · exact h.trans h3n
        · rcases herr with ⟨e, he⟩ | ⟨e, he⟩
          · rw [he3] at he
            exact Except.noConfusion he
          · rw [hsc] at he
            exact Except.noConfusion he
      · rcases hqsc' with h | ⟨_, ⟨v, he3⟩, sc, hscok, _⟩
        · exact h
        · rcases herr with ⟨e, he⟩ | ⟨e, he⟩
          · rw [he3] at he
            exact Except.noConfusion he
          · rw [hscok] at he
            exact Except.noConfusion he
    · intro hneed hp
      exact hvpos' hneed hp.2
    · intro hv
      exact Option.noConfusion hv

/-! ## Relating the handlers to the pipeline chain -/

/-- A resume with a non-blank stored script and no pending stop request is
exactly the pipeline chain on the current project. -/
theorem handleResume_eq_runPipeline (env : Env) (s : AppState) (p : Project)
    (hp : s.currentProject = some p) (hs : isBlank s.scriptToAnalyze = false) :
    handleResumeAnalysis env s neverStop =
      runPipeline env s.visualOptions neverStop ⟨p, 0, [], []⟩ := by
  have hsched : (fun n => decide (0 < n) && neverStop n) = neverStop := by
    funext n
    simp [neverStop]
  simp only [handleResumeAnalysis, hp, executeAnalysis, hsched, hs, if_true,
    Bool.false_eq_true, if_false]

/-- A fresh `start` with non-blank text is exactly the pipeline chain on a
fresh project seeded with the script, under the cleared stop flag. -/
theorem start_eq_runPipeline (env : Env) (scriptText : String)
    (options : Option VisualOptions) (s : AppState) (stop : Nat → Bool)
    (hs : isBlank scriptText = false) :
    start env scriptText options s stop =
      runPipeline env options (fun n => decide (0 < n) && stop n)
        ⟨{ createNewProject with script := scriptText }, 0, [], []⟩ := by
  simp only [start, handleAnalysis, hs, Bool.false_eq_true, if_false, executeAnalysis]
  simp

/-! ## Claim C1 -/

/-- C1: for every Project with an arbitrary subset of
{stage1Result, stage2Result, stage3Result} populated, `resume()` never
re-invokes the Gateway operation of a stage whose result field is already
non-null (and that stage's stored result value survives the run unchanged —
stage 2 up to visual patching, which replaces no stage-2 analysis result),
and always invokes the Gateway operation of the first stage whose result
field is null. -/
theorem resume_idempotent (env : Env) (s : AppState) (p : Project)
    (hp : s.currentProject = some p) (hs : isBlank s.scriptToAnalyze = false) :
    (∀ v, p.stage1Result = some v →
      GatewayOp.stage1 ∉ (handleResumeAnalysis env s neverStop).trace ∧
      ∃ q, (handleResumeAnalysis env s neverStop).currentProject = some q ∧
        q.stage1Result = some v) ∧
    (∀ v, p.stage2Result = some v →
      GatewayOp.stage2 ∉ (handleResumeAnalysis env s neverStop).trace ∧
      ∃ q, (handleResumeAnalysis env s neverStop).currentProject = some q ∧
        q.stage2Result.isSome) ∧
    (∀ v, p.stage3Result = some v →
      GatewayOp.stage3 ∉ (handleResumeAnalysis env s neverStop).trace ∧
      GatewayOp.extractScenes ∉ (handleResumeAnalysis env s neverStop).trace ∧
      ∃ q, (handleResumeAnalysis env s neverStop).currentProject = some q ∧
        q.stage3Result = some v) ∧
    (p.stage1Result = none →
      GatewayOp.stage1 ∈ (handleResumeAnalysis env s neverStop).trace) ∧
    (p.stage1Result.isSome → p.stage2Result = none →
      GatewayOp.stage2 ∈ (handleResumeAnalysis env s neverStop).trace) ∧
    (p.stage1Result.isSome → p.stage2Result.isSome → p.stage3Result = none →
      GatewayOp.stage3 ∈ (handleResumeAnalysis env s neverStop).trace) := by
  rw [handleResume_eq_runPipeline env s p hp hs]
  obtain ⟨q, hq, hp1, hp2, hp3, hpsc, hm1, hm2, hmv, hm3, hmsc, hsub, hst1, hst2,
    hst3, hpos, hneg, hvpos, hn1, hn2⟩ := runPipeline_spec env s.visualOptions p
  refine ⟨?_, ?_, ?_, ?_, ?_, ?_⟩
  · intro v hv
    refine ⟨?_, q, hq, hp1 v hv⟩
    rw [hm1]
    simp [hv]
  · intro v hv
    refine ⟨?_, q, hq, hp2 v hv⟩
    rw [hm2]
    simp [hv]
  · intro v hv
    refine ⟨?_, ?_, q, hq, hp3 v hv⟩
    · rw [hm3]
      simp [hv]
    · rw [hmsc]
      simp [hv]
  · intro hn
    rw [hm1]
    exact hn
  · intro h1s h2n
    rw [hm2]
    exact ⟨h2n, Or.inl h1s⟩
  · intro h1s h2s h3n
    rw [hm3]
    exact ⟨h3n, Or.inl h1s, Or.inl h2s⟩

/-- A paused sample project: stage 1 done, stages 2-3 pending. -/
def resumeSampleProject : Project :=
  { createNewProject with script := "A man enters.", stage1Result := some sampleStage1 }

/-- The App state holding `resumeSampleProject`, paused, no visuals chosen. -/
def resumeSampleState : AppState :=
  ⟨.PAUSED, none, some resumeSampleProject, "A man enters.", none⟩

/-- Witness for `resume_idempotent`: a project with stage 1 done and stages
2-3 pending, resumed with no visuals requested: stage 1 is not re-invoked,
stage 2 (the first null stage) is. -/
theorem resume_idempotent_witness :
    GatewayOp.stage1 ∉ (handleResumeAnalysis okEnv resumeSampleState neverStop).trace ∧
    GatewayOp.stage2 ∈ (handleResumeAnalysis okEnv resumeSampleState neverStop).trace := by
  have h := resume_idempotent okEnv resumeSampleState resumeSampleProject rfl (by decide)
  exact ⟨(h.1 sampleStage1 rfl).1, h.2.2.2.2.1 rfl rfl⟩

/-! ## Claim C4 -/

/-- C4: when `stage3Result` is null, the stage-3 production breakdown and
scene extraction form a paired, atomic step: `stage3Result` and `fullScenes`
are merged only if both calls succeed and the run completes; if either call
fails, neither is merged and status becomes `error`; on a stage-3 failure
the scene-extraction call is not even started; and after such a failure the
paired step is re-attempted by a subsequent `resume()`. -/
theorem stage3_paired_atomic (env : Env) (s : AppState) (p : Project)
    (r1 : Stage1Result) (r2 : Stage2Result)
    (hp : s.currentProject = some p) (hs : isBlank s.scriptToAnalyze = false)
    (h1 : p.stage1Result = some r1) (h2 : p.stage2Result = some r2)
    (h3 : p.stage3Result = none) :
    ∃ q, (handleResumeAnalysis env s neverStop).currentProject = some q ∧
    GatewayOp.stage3 ∈ (handleResumeAnalysis env s neverStop).trace ∧
    (∀ v sc, env.stage3 = .ok v → env.extractScenes = .ok sc →
      q.stage3Result = some v ∧ q.fullScenes = some sc ∧
      (handleResumeAnalysis env s neverStop).status = .COMPLETE) ∧
    (((∃ e, env.stage3 = .error e) ∨ ∃ e, env.extractScenes = .error e) →
      q.stage3Result = none ∧ q.fullScenes = p.fullScenes ∧
      (handleResumeAnalysis env s neverStop).status = .ERROR) ∧
    (∀ e, env.stage3 = .error e →
      GatewayOp.extractScenes ∉ (handleResumeAnalysis env s neverStop).trace) ∧
    (q.stage3Result = none → ∀ env2 s2, s2.currentProject = some q →
      isBlank s2.scriptToAnalyze = false →
      GatewayOp.stage3 ∈ (handleResumeAnalysis env2 s2 neverStop).trace) := by
  rw [handleResume_eq_runPipeline env s p hp hs]
  obtain ⟨q, hq, hp1, hp2, hp3, hpsc, hm1, hm2, hmv, hm3, hmsc, hsub, hst1, hst2,
    hst3, hpos, hneg, hvpos, hn1, hn2⟩ := runPipeline_spec env s.visualOptions p
  have hpass : (p.stage1Result.isSome ∨ ∃ u, env.stage1 = .ok u) ∧
      (p.stage2Result.isSome ∨ ∃ u, env.stage2 = .ok u) :=
    ⟨Or.inl (by simp [h1]), Or.inl (by simp [h2])⟩
  refine ⟨q, hq, ?_, ?_, ?_, ?_, ?_⟩
  · rw [hm3]
    exact ⟨h3, hpass⟩
  · intro v sc he3 hsc
    exact hpos v sc h3 he3 hsc hpass
  · intro herr
    obtain ⟨hq3n, hqscn⟩ := hneg h3 herr
    refine ⟨hq3n, hqscn, ?_⟩
    rcases hst1 with hc | he
    · exfalso
      rcases (hst2.mp hc).2 with hsome | ⟨⟨v, he3⟩, sc, hsc⟩
      · rw [h3] at hsome
        simp at hsome
      · rcases herr with ⟨e, he⟩ | ⟨e, he⟩
        · rw [he3] at he
          exact Except.noConfusion he
        · rw [hsc] at he
          exact Except.noConfusion he
    · exact he
  · intro e he3
    rw [hmsc]
    rintro (⟨-, -, v, hv⟩)
    rw [hv] at he3
    exact Except.noConfusion he3
  · intro hq3n env2 s2 hp2' hs2
    rw [handleResume_eq_runPipeline env2 s2 q hp2' hs2]
    obtain ⟨q', hq', _, _, _, _, _, _, _, hm3', _, _, _, _, _, _, _, _, _⟩ :=
      runPipeline_spec env2 s2.visualOptions q
    rw [hm3']
    refine ⟨hq3n, Or.inl ?_, Or.inl (hp2 r2 h2)⟩
    rw [hp1 r1 h1]
    rfl

/-- An environment in which the stage-3 breakdown call fails terminally. -/
def stage3FailEnv : Env := { okEnv with stage3 := .error fatalErr }

/-- A project with stages 1-2 done and stage 3 pending. -/
def stage3PendingProject : Project :=
  { createNewProject with
    script := "A man enters."
    stage1Result := some sampleStage1
    stage2Result := some sampleStage2 }

/-- The App state holding `stage3PendingProject`, paused, no visuals chosen. -/
def stage3PendingState : AppState :=
  ⟨.PAUSED, none, some stage3PendingProject, "A man enters.", none⟩

/-- Witness for `stage3_paired_atomic`: with the stage-3 call failing, the
run leaves `stage3Result` null, merges no scenes, ends in `error`, and never
starts the scene-extraction call. -/
theorem stage3_paired_atomic_witness :
    ∃ q, (handleResumeAnalysis stage3FailEnv stage3PendingState neverStop).currentProject =
        some q ∧
      q.stage3Result = none ∧ q.fullScenes = none ∧
      (handleResumeAnalysis stage3FailEnv stage3PendingState neverStop).status = .ERROR ∧
      GatewayOp.extractScenes ∉
        (handleResumeAnalysis stage3FailEnv stage3PendingState neverStop).trace := by
  obtain ⟨q, hq, hmem, hok, hfail, hnosc, hre⟩ :=
    stage3_paired_atomic stage3FailEnv stage3PendingState stage3PendingProject
      sampleStage1 sampleStage2 rfl (by decide) rfl rfl rfl
  obtain ⟨hq3, hqsc, hst⟩ := hfail (Or.inl ⟨fatalErr, rfl⟩)
  exact ⟨q, hq, hq3, hqsc, hst, hnosc fatalErr rfl⟩

/-! ## Claim C6 -/

/-- C6: on any unrecovered stage failure the pipeline halts at the failing
step — it never skips forward to a later stage —, sets status to `error`
(with an error message present), and every previously merged stage result in
the Project is preserved unchanged: no rollback of completed stages.  The
trace is always an in-order fragment of the fixed stage sequence. -/
theorem error_halts_and_preserves (env : Env) (s : AppState) (p : Project)
    (hp : s.currentProject = some p) (hs : isBlank s.scriptToAnalyze = false) :
    List.Sublist (handleResumeAnalysis env s neverStop).trace
      [GatewayOp.stage1, GatewayOp.stage2, GatewayOp.visuals, GatewayOp.stage3,
        GatewayOp.extractScenes] ∧
    ((handleResumeAnalysis env s neverStop).status = .ERROR →
      (handleResumeAnalysis env s neverStop).error.isSome ∧
      ∃ q, (handleResumeAnalysis env s neverStop).currentProject = some q ∧
        (∀ v, p.stage1Result = some v → q.stage1Result = some v) ∧
        (∀ v, p.stage2Result = some v → q.stage2Result.isSome) ∧
        (∀ v, p.stage3Result = some v → q.stage3Result = some v) ∧
        (∀ v w, p.stage3Result = some v → p.fullScenes = some w →
          q.fullScenes = some w)) ∧
    (p.stage1Result = none → (∃ e, env.stage1 = .error e) →
      (handleResumeAnalysis env s neverStop).status = .ERROR ∧
      GatewayOp.stage2 ∉ (handleResumeAnalysis env s neverStop).trace ∧
      GatewayOp.visuals ∉ (handleResumeAnalysis env s neverStop).trace ∧
      GatewayOp.stage3 ∉ (handleResumeAnalysis env s neverStop).trace ∧
      GatewayOp.extractScenes ∉ (handleResumeAnalysis env s neverStop).trace) ∧
    (p.stage2Result = none → (∃ e, env.stage2 = .error e) →
      (handleResumeAnalysis env s neverStop).status = .ERROR ∧
      GatewayOp.visuals ∉ (handleResumeAnalysis env s neverStop).trace ∧
      GatewayOp.stage3 ∉ (handleResumeAnalysis env s neverStop).trace ∧
      GatewayOp.extractScenes ∉ (handleResumeAnalysis env s neverStop).trace) ∧
    (p.stage3Result = none →
      ((∃ e, env.stage3 = .error e) ∨ ∃ e, env.extractScenes = .error e) →
      (handleResumeAnalysis env s neverStop).status = .ERROR ∧
      ∀ e, env.stage3 = .error e →
        GatewayOp.extractScenes ∉ (handleResumeAnalysis env s neverStop).trace) := by
  rw [handleResume_eq_runPipeline env s p hp hs]
  obtain ⟨q, hq, hp1, hp2, hp3, hpsc, hm1, hm2, hmv, hm3, hmsc, hsub, hst1, hst2,
    hst3, hpos, hneg, hvpos, hn1, hn2⟩ := runPipeline_spec env s.visualOptions p
  have herrOf : ∀ hne : ¬((((p.stage1Result.isSome ∨ ∃ v, env.stage1 = .ok v) ∧
      (p.stage2Result.isSome ∨ ∃ v, env.stage2 = .ok v)) ∧
      (p.stage3Result.isSome ∨
        ((∃ v, env.stage3 = .ok v) ∧ ∃ sc, env.extractScenes = .ok sc)))),
      (runPipeline env s.visualOptions neverStop ⟨p, 0, [], []⟩).status = .ERROR := by
    intro hne
    rcases hst1 with hc | he
    · exact absurd (hst2.mp hc) hne
    · exact he
  refine ⟨hsub, ?_, ?_, ?_, ?_⟩
  · intro herr
    exact ⟨hst3.mpr herr, q, hq, hp1, hp2, hp3, hpsc⟩
  · intro h1n he1
    obtain ⟨e, he⟩ := he1
    have hnp1 : ¬(p.stage1Result.isSome = true ∨ ∃ v, env.stage1 = .ok v) := by
      rintro (hsm | ⟨v, hv⟩)
      · rw [h1n] at hsm
        simp at hsm
      · rw [hv] at he
        exact Except.noConfusion he
    refine ⟨herrOf (fun hfull => hnp1 hfull.1.1), ?_, ?_, ?_, ?_⟩
    · rw [hm2]
      rintro ⟨-, hpass⟩
      exact hnp1 hpass
    · rw [hmv]
      rintro ⟨-, hpass, -⟩
      exact hnp1 hpass
    · rw [hm3]
      rintro ⟨-, hpass, -⟩
      exact hnp1 hpass
    · rw [hmsc]
      rintro ⟨-, ⟨hpass, -⟩, -⟩
      exact hnp1 hpass
  · intro h2n he2
    obtain ⟨e, he⟩ := he2
    have hnp2 : ¬(p.stage2Result.isSome = true ∨ ∃ v, env.stage2 = .ok v) := by
      rintro (hsm | ⟨v, hv⟩)
      · rw [h2n] at hsm
        simp at hsm
      · rw [hv] at he
        exact Except.noConfusion he
    refine ⟨herrOf (fun hfull => hnp2 hfull.1.2), ?_, ?_, ?_⟩
    · rw [hmv]
      rintro ⟨-, -, hpass⟩
      exact hnp2 hpass
    · rw [hm3]
      rintro ⟨-, -, hpass⟩
      exact hnp2 hpass
    · rw [hmsc]
      rintro ⟨-, ⟨-, hpass⟩, -⟩
      exact hnp2 hpass
  · intro h3n herr
    have hnd : ¬(p.stage3Result.isSome = true ∨
        ((∃ v, env.stage3 = .ok v) ∧ ∃ sc, env.extractScenes = .ok sc)) := by
      rintro (hsm | ⟨⟨v, hv⟩, ⟨sc, hsc⟩⟩)
      · rw [h3n] at hsm
        simp at hsm
      · rcases herr with ⟨e, he⟩ | ⟨e, he⟩
        · rw [hv] at he
          exact Except.noConfusion he
        · rw [hsc] at he
          exact Except.noConfusion he
    refine ⟨herrOf (fun hfull => hnd hfull.2), ?_⟩
    intro e he3
    rw [hmsc]
    rintro ⟨-, -, v, hv⟩
    rw [hv] at he3
    exact Except.noConfusion he3

/-- Witness for `error_halts_and_preserves`: the stage-3 failure run on a
project with stages 1-2 done ends in `error` with a message, both earlier
results preserved, and scene extraction never started. -/
theorem error_halts_and_preserves_witness :
    (handleResumeAnalysis stage3FailEnv stage3PendingState neverStop).status = .ERROR ∧
    (handleResumeAnalysis stage3FailEnv stage3PendingState neverStop).error.isSome ∧
    GatewayOp.extractScenes ∉
      (handleResumeAnalysis stage3FailEnv stage3PendingState neverStop).trace := by
  have h := error_halts_and_preserves stage3FailEnv stage3PendingState
    stage3PendingProject rfl (by decide)
  obtain ⟨hst, hno⟩ := h.2.2.2.2 rfl (Or.inl ⟨fatalErr, rfl⟩)
  exact ⟨hst, (h.2.1 hst).1, hno fatalErr rfl⟩

/-! ## Field-level description of the visuals merge -/

theorem mergeVisuals_concept_art (r2 : Stage2Result) (v : VisualsBundle) :
    (mergeVisuals r2 v).concept_art_base64 =
      if v.concept_art_base64 = "" then r2.concept_art_base64
      else some v.concept_art_base64 := by
  unfold mergeVisuals
  by_cases h1 : v.concept_art_base64 = "" <;> by_cases h2 : v.movie_poster_base64 = "" <;>
    by_cases h3 : v.character_portraits.isEmpty <;>
    by_cases h4 : v.comparable_titles_visuals.isEmpty <;>
    by_cases h5 : v.visual_style_images_base64.isEmpty <;>
    simp [h1, h2, h3, h4, h5]

theorem mergeVisuals_movie_poster (r2 : Stage2Result) (v : VisualsBundle) :
    (mergeVisuals r2 v).movie_poster_base64 =
      if v.movie_poster_base64 = "" then r2.movie_poster_base64
      else some v.movie_poster_base64 := by
  unfold mergeVisuals
  by_cases h1 : v.concept_art_base64 = "" <;> by_cases h2 : v.movie_poster_base64 = "" <;>
    by_cases h3 : v.character_portraits.isEmpty <;>
    by_cases h4 : v.comparable_titles_visuals.isEmpty <;>
    by_cases h5 : v.visual_style_images_base64.isEmpty <;>
    simp [h1, h2, h3, h4, h5]

theorem mergeVisuals_character_profiles (r2 : Stage2Result) (v : VisualsBundle) :
    (mergeVisuals r2 v).character_profiles =
      if v.character_portraits.isEmpty then r2.character_profiles
      else r2.character_profiles.map (fun profile =>
        match v.character_portraits.find? (fun p => p.name == profile.name) with
        | some portrait => { profile with image_base64 := some portrait.image_base64 }
        | none => profile) := by
  unfold mergeVisuals
  by_cases h1 : v.concept_art_base64 = "" <;> by_cases h2 : v.movie_poster_base64 = "" <;>
    by_cases h3 : v.character_portraits.isEmpty <;>
    by_cases h4 : v.comparable_titles_visuals.isEmpty <;>
    by_cases h5 : v.visual_style_images_base64.isEmpty <;>
    simp [h1, h2, h3, h4, h5]

theorem mergeVisuals_comparable_titles_visuals (r2 : Stage2Result) (v : VisualsBundle) :
    (mergeVisuals r2 v).comparable_titles_visuals =
      if v.comparable_titles_visuals.isEmpty then r2.comparable_titles_visuals
      else some v.comparable_titles_visuals := by
  unfold mergeVisuals
  by_cases h1 : v.concept_art_base64 = "" <;> by_cases h2 : v.movie_poster_base64 = "" <;>
    by_cases h3 : v.character_portraits.isEmpty <;>
    by_cases h4 : v.comparable_titles_visuals.isEmpty <;>
    by_cases h5 : v.visual_style_images_base64.isEmpty <;>
    simp [h1, h2, h3, h4, h5]

theorem mergeVisuals_visual_style_images (r2 : Stage2Result) (v : VisualsBundle) :
    (mergeVisuals r2 v).visual_style_images_base64 =
      if v.visual_style_images_base64.isEmpty then r2.visual_style_images_base64
      else some v.visual_style_images_base64 := by
  unfold mergeVisuals
  by_cases h1 : v.concept_art_base64 = "" <;> by_cases h2 : v.movie_poster_base64 = "" <;>
    by_cases h3 : v.character_portraits.isEmpty <;>
    by_cases h4 : v.comparable_titles_visuals.isEmpty <;>
    by_cases h5 : v.visual_style_images_base64.isEmpty <;>
    simp [h1, h2, h3, h4, h5]

/-! ## Claim C7 -/

/-- C7: if character-portrait generation fails for one of two (on-screen)
characters during the visuals step, the patched `stage2Result` holds the
succeeding character's portrait merged and the failing character's profile
unchanged (no `image_base64`), and the pipeline still proceeds to stage 3
and completes. -/
theorem partial_portrait_failure (env : Env) (s : AppState) (p : Project)
    (r1 : Stage1Result) (r2 : Stage2Result) (pa pb : CharacterProfile) (sa : String)
    (e : Err) (o : VisualOptions) (r3 : Stage3Result) (sc : List FullScene)
    (hp : s.currentProject = some p) (hs : isBlank s.scriptToAnalyze = false)
    (h1 : p.stage1Result = some r1) (h2 : p.stage2Result = some r2)
    (h3 : p.stage3Result = none)
    (hprof : r2.character_profiles = [pa, pb])
    (hpaos : pa.screen_presence = "on-screen")
    (hpbos : pb.screen_presence = "on-screen")
    (hne : (pa.name == pb.name) = false)
    (ho : s.visualOptions = some o) (hchar : o.characters = true)
    (hportA : env.visuals.portrait pa.name = .ok sa) (hsa : ¬(sa = ""))
    (hportB : env.visuals.portrait pb.name = .error e)
    (he3 : env.stage3 = .ok r3) (hesc : env.extractScenes = .ok sc) :
    ∃ q, (handleResumeAnalysis env s neverStop).currentProject = some q ∧
      (∃ r2n, q.stage2Result = some r2n ∧
        r2n.character_profiles = [{ pa with image_base64 := some sa }, pb]) ∧
      GatewayOp.stage3 ∈ (handleResumeAnalysis env s neverStop).trace ∧
      q.stage3Result = some r3 ∧
      (handleResumeAnalysis env s neverStop).status = .COMPLETE := by
  rw [handleResume_eq_runPipeline env s p hp hs]
  obtain ⟨q, hq, hp1, hp2, hp3, hpsc, hm1, hm2, hmv, hm3, hmsc, hsub, hst1, hst2,
    hst3, hpos, hneg, hvpos, hn1, hn2⟩ := runPipeline_spec env s.visualOptions p
  have hpass : (p.stage1Result.isSome ∨ ∃ u, env.stage1 = .ok u) ∧
      (p.stage2Result.isSome ∨ ∃ u, env.stage2 = .ok u) :=
    ⟨Or.inl (by simp [h1]), Or.inl (by simp [h2])⟩
  have hneed : needVisuals s.visualOptions = true := by
    rw [ho]
    simp [needVisuals, hchar]
  obtain ⟨r2x, ox, hox, hcase, hmerge⟩ := hvpos hneed hpass
  have hoxo : ox = o := by
    rw [ho] at hox
    exact (Option.some.inj hox).symm
  have hr2x : r2x = r2 := by
    rcases hcase with hcx | ⟨hn, _⟩
    · rw [h2] at hcx
      exact (Option.some.inj hcx).symm
    · rw [h2] at hn
      exact Option.noConfusion hn
  rw [hoxo, hr2x] at hmerge
  have hmain : mainCharactersOf r2 = [pa, pb] := by
    simp [mainCharactersOf, hprof, List.filter, hpaos, hpbos]
  have hbundle : (generateAllVisuals env.visuals r2 o).1.character_portraits =
      [⟨pa.name, sa⟩] := by
    simp [generateAllVisuals, hmain, hchar, hportA, hportB, hsa]
  refine ⟨q, hq, ⟨mergeVisuals r2 (generateAllVisuals env.visuals r2 o).1, hmerge, ?_⟩,
    ?_, ?_, ?_⟩
  · rw [mergeVisuals_character_profiles, hbundle, hprof]
    simp [List.find?, hne]
  · rw [hm3]
    exact ⟨h3, hpass⟩
  · exact (hpos r3 sc h3 he3 hesc hpass).1
  · exact (hpos r3 sc h3 he3 hesc hpass).2.2

/-- A visuals environment in which Ada's portrait succeeds and Ben's fails. -/
def portraitFailVisualsEnv : VisualsEnv :=
  { okVisualsEnv with
    portrait := fun n => if n == "Ada" then .ok "PORTRAIT-ADA" else .error rateLimitErr }

/-- The environment for the C7 witness run: portraits degrade, stage 3 works. -/
def portraitFailEnv : Env := { okEnv with visuals := portraitFailVisualsEnv }

/-- The App state resuming `stage3PendingProject` with character portraits
requested. -/
def portraitRequestState : AppState :=
  ⟨.PAUSED, none, some stage3PendingProject, "A man enters.",
    some ⟨false, false, true⟩⟩

/-- Witness for `partial_portrait_failure` at a concrete run: Ada's portrait
is merged, Ben's profile is unchanged, stage 3 completes. -/
theorem partial_portrait_failure_witness :
    ∃ q, (handleResumeAnalysis portraitFailEnv portraitRequestState neverStop).currentProject =
        some q ∧
      (∃ r2n, q.stage2Result = some r2n ∧
        r2n.character_profiles =
          [{ sampleCharA with image_base64 := some "PORTRAIT-ADA" }, sampleCharB]) ∧
      GatewayOp.stage3 ∈
        (handleResumeAnalysis portraitFailEnv portraitRequestState neverStop).trace ∧
      q.stage3Result = some sampleStage3 ∧
      (handleResumeAnalysis portraitFailEnv portraitRequestState neverStop).status =
        .COMPLETE := by
  exact partial_portrait_failure portraitFailEnv portraitRequestState
    stage3PendingProject sampleStage1 sampleStage2 sampleCharA sampleCharB
    "PORTRAIT-ADA" rateLimitErr ⟨false, false, true⟩ sampleStage3 sampleScenes
    rfl (by decide) rfl rfl rfl rfl rfl rfl (by decide) rfl rfl rfl (by decide) rfl rfl rfl

/-! ## Trace monotonicity for an arbitrary stop schedule -/

theorem stage3Part_trace_mono (env : Env) (stop : Nat → Bool) (acc : RunAcc) :
    ∃ t, (stage3Part env stop acc).trace = acc.trace ++ t := by
  rcases h3 : acc.project.stage3Result with _ | v3
  · cases hstp : stop acc.steps
    · rcases he3 : env.stage3 with e3 | w3
      · exact ⟨[.stage3], by rw [stage3Part_fail3 env stop acc e3 h3 hstp he3]; rfl⟩
      · rcases hsc : env.extractScenes with esc | wsc
        · exact ⟨[.stage3, .extractScenes],
            by rw [stage3Part_failScenes env stop acc w3 esc h3 hstp he3 hsc]; rfl⟩
        · exact ⟨[.stage3, .extractScenes],
            by rw [stage3Part_ok env stop acc w3 wsc h3 hstp he3 hsc]⟩
    · exact ⟨[], by rw [stage3Part_stop env stop acc h3 hstp]; simp [pausedResult]⟩
  · exact ⟨[], by rw [stage3Part_skip env stop acc v3 h3]; simp⟩

theorem visualsPart_trace_mono (env : Env) (opts : Option VisualOptions)
    (stop : Nat → Bool) (acc : RunAcc) :
    ∃ t, (visualsPart env opts stop acc).trace = acc.trace ++ t := by
  rcases opts with _ | o
  · rw [visualsPart_none]
    exact stage3Part_trace_mono env stop acc
  · cases hf : (o.poster || o.concept || o.characters)
    · rw [visualsPart_noFlags env o stop acc hf]
      exact stage3Part_trace_mono env stop acc
    · cases hstp : stop acc.steps
      · rcases h2 : acc.project.stage2Result with _ | r2
        · have hrw : visualsPart env (some o) stop acc = stage3Part env stop acc := by
            rw [visualsPart]
            simp [visualsStep, hf, hstp, h2]
          rw [hrw]
          exact stage3Part_trace_mono env stop acc
        · rw [visualsPart_run env o stop acc r2 hf hstp h2]
          obtain ⟨t, ht⟩ := stage3Part_trace_mono env stop _
          exact ⟨.visuals :: t, by rw [ht]; simp⟩
      · exact ⟨[], by rw [visualsPart_stop env o stop acc hf hstp]; simp [pausedResult]⟩

theorem stage2Part_trace_mono (env : Env) (opts : Option VisualOptions)
    (stop : Nat → Bool) (acc : RunAcc) :
    ∃ t, (stage2Part env opts stop acc).trace = acc.trace ++ t := by
  rcases h2 : acc.project.stage2Result with _ | v2
  · cases hstp : stop acc.steps
    · rcases he2 : env.stage2 with e2 | w2
      · exact ⟨[.stage2], by rw [stage2Part_fail env opts stop acc e2 h2 hstp he2]; rfl⟩
      · rw [stage2Part_ok env opts stop acc w2 h2 hstp he2]
        obtain ⟨t, ht⟩ := visualsPart_trace_mono env opts stop _
        exact ⟨.stage2 :: t, by rw [ht]; simp⟩
    · exact ⟨[], by rw [stage2Part_stop env opts stop acc h2 hstp]; simp [pausedResult]⟩
  · rw [stage2Part_skip env opts stop acc v2 h2]
    exact visualsPart_trace_mono env opts stop acc

/-! ## Claim C9 -/

/-- C9: starting an analysis with blank (empty or whitespace-only) source
text fails as a validation error before any stage runs — no Gateway
operation is invoked, the Project state and status are untouched, and the
validation message is reported; with non-blank text, no other failure can
occur before a stage is invoked: the very first backend operation of the
run is always the stage-1 call. -/
theorem start_validation_short_circuit (env : Env) (scriptText : String)
    (options : Option VisualOptions) (s : AppState) (stop : Nat → Bool) :
    (isBlank scriptText = true →
      (start env scriptText options s stop).trace = [] ∧
      (start env scriptText options s stop).currentProject = s.currentProject ∧
      (start env scriptText options s stop).error =
        some "Script content cannot be empty." ∧
      (start env scriptText options s stop).status = s.status) ∧
    (isBlank scriptText = false →
      (start env scriptText options s stop).trace.head? = some GatewayOp.stage1) := by
  constructor
  · intro hb
    simp [start, handleAnalysis, hb]
  · intro hb
    rw [start_eq_runPipeline env scriptText options s stop hb]
    have h1 : ({ createNewProject with script := scriptText } : Project).stage1Result =
        none := rfl
    have hstp : (fun n => decide (0 < n) && stop n) 0 = false := by simp
    rcases he1 : env.stage1 with e1 | w1
    · rw [runPipeline_fail1 env options _ _ e1 h1 hstp he1]
      simp [errorResult]
    · rw [runPipeline_ok1 env options _ _ w1 h1 hstp he1]
      obtain ⟨t, ht⟩ := stage2Part_trace_mono env options _ _
      rw [ht]
      simp

/-- Witness for `start_validation_short_circuit`: a whitespace-only start
invokes nothing and leaves the state untouched; a non-blank start's first
operation is stage 1. -/
theorem start_validation_short_circuit_witness :
    ((start okEnv "   " none ⟨.IDLE, none, none, "", none⟩ neverStop).trace = [] ∧
      (start okEnv "   " none ⟨.IDLE, none, none, "", none⟩ neverStop).currentProject =
        none ∧
      (start okEnv "   " none ⟨.IDLE, none, none, "", none⟩ neverStop).error =
        some "Script content cannot be empty." ∧
      (start okEnv "   " none ⟨.IDLE, none, none, "", none⟩ neverStop).status = .IDLE) ∧
    (start okEnv "A man enters." none ⟨.IDLE, none, none, "", none⟩ neverStop).trace.head? =
      some GatewayOp.stage1 := by
  constructor
  · exact (start_validation_short_circuit okEnv "   " none ⟨.IDLE, none, none, "", none⟩
      neverStop).1 (by decide)
  · exact (start_validation_short_circuit okEnv "A man enters." none
      ⟨.IDLE, none, none, "", none⟩ neverStop).2 (by decide)

/-! ## Claim C10 -/

/-- C10: the visuals step issues character-portrait requests only for at
most the first two character profiles whose `screen_presence` is
`"on-screen"`: the request list is exactly the names of those profiles when
the characters option is set and empty otherwise, never exceeds two, and
every returned portrait corresponds to a requested name. -/
theorem portrait_requests_bounded (venv : VisualsEnv) (r2 : Stage2Result)
    (o : VisualOptions) :
    ((generateAllVisuals venv r2 o).2 =
      if o.characters then (mainCharactersOf r2).map (fun c => c.name) else []) ∧
    (∀ n, n ∈ (generateAllVisuals venv r2 o).2 →
      n ∈ ((r2.character_profiles.filter
        (fun c => c.screen_presence == "on-screen")).take 2).map (fun c => c.name)) ∧
    (generateAllVisuals venv r2 o).2.length ≤ 2 ∧
    (∀ pt, pt ∈ (generateAllVisuals venv r2 o).1.character_portraits →
      pt.name ∈ (generateAllVisuals venv r2 o).2) := by
  have hreq : (generateAllVisuals venv r2 o).2 =
      if o.characters then (mainCharactersOf r2).map (fun c => c.name) else [] := by
    simp [generateAllVisuals]
  have hport : (generateAllVisuals venv r2 o).1.character_portraits =
      if o.characters then
        (mainCharactersOf r2).filterMap (fun c =>
          match venv.portrait c.name with
          | .ok s => if s = "" then none else some ⟨c.name, s⟩
          | .error _ => none)
      else [] := by
    simp [generateAllVisuals]
  refine ⟨hreq, ?_, ?_, ?_⟩
  · intro n hn
    rw [hreq] at hn
    rcases hc : o.characters
    · rw [hc] at hn
      simp at hn
    · rw [hc] at hn
      simp only [if_true] at hn
      exact hn
  · rw [hreq]
    have hlen : (mainCharactersOf r2).length ≤ 2 := by
      rw [mainCharactersOf]
      exact List.length_take_le 2 (r2.character_profiles.filter
        (fun c => c.screen_presence == "on-screen"))
    rcases hc : o.characters
    · simp
    · simp
      exact hlen
  · intro pt hpt
    rw [hport] at hpt
    rw [hreq]
    rcases hc : o.characters
    · rw [hc] at hpt
      simp at hpt
    · rw [hc] at hpt
      simp only [if_true] at hpt ⊢
      obtain ⟨c, hc2, hf⟩ := List.mem_filterMap.mp hpt
      refine List.mem_map.mpr ⟨c, hc2, ?_⟩
      rcases hpc : venv.portrait c.name with e | sv
      · rw [hpc] at hf
        simp at hf
      · rw [hpc] at hf
        by_cases hsv : sv = ""
        · simp [hsv] at hf
        · simp [hsv] at hf
          rw [← hf]

/-- A stage-2 result with four profiles: two on-screen, one off-screen
between them, one extra on-screen beyond the first two. -/
def manyCharStage2 : Stage2Result :=
  { sampleStage2 with
    character_profiles := [sampleCharA, sampleCharOff, sampleCharB,
      { sampleCharA with name := "Cleo" }] }

/-- Witness for `portrait_requests_bounded`: the off-screen character and
the third on-screen character are never requested. -/
theorem portrait_requests_bounded_witness :
    (generateAllVisuals okVisualsEnv manyCharStage2 ⟨false, false, true⟩).2 =
      ["Ada", "Ben"] ∧
    "Voice" ∉ (generateAllVisuals okVisualsEnv manyCharStage2
      ⟨false, false, true⟩).2 := by
  constructor
  · rfl
  · intro hmem
    exact absurd ((portrait_requests_bounded okVisualsEnv manyCharStage2
      ⟨false, false, true⟩).2.1 "Voice" hmem) (by decide)

/-! ## Claim C8 -/

/-- C8: merging a visuals bundle onto an existing stage-2 result is a
field-level patch: each optional image field is overwritten only when the
bundle holds a non-empty value; character portraits are matched to profiles
by name and patch only matching profiles, leaving every other profile
untouched; the two arrays are replaced only when non-empty; and in
particular, requesting only `{poster: true}` leaves `concept_art_base64`
and every profile's `image_base64` exactly as they were. -/
theorem visual_merge_field_level (r2 : Stage2Result) (v : VisualsBundle) :
    ((mergeVisuals r2 v).concept_art_base64 =
      if v.concept_art_base64 = "" then r2.concept_art_base64
      else some v.concept_art_base64) ∧
    ((mergeVisuals r2 v).movie_poster_base64 =
      if v.movie_poster_base64 = "" then r2.movie_poster_base64
      else some v.movie_poster_base64) ∧
    ((mergeVisuals r2 v).character_profiles =
      if v.character_portraits.isEmpty then r2.character_profiles
      else r2.character_profiles.map (fun profile =>
        match v.character_portraits.find? (fun p => p.name == profile.name) with
        | some portrait => { profile with image_base64 := some portrait.image_base64 }
        | none => profile)) ∧
    (∀ profile, profile ∈ r2.character_profiles →
      v.character_portraits.find? (fun p => p.name == profile.name) = none →
      profile ∈ (mergeVisuals r2 v).character_profiles) ∧
    ((mergeVisuals r2 v).comparable_titles_visuals =
      if v.comparable_titles_visuals.isEmpty then r2.comparable_titles_visuals
      else some v.comparable_titles_visuals) ∧
    ((mergeVisuals r2 v).visual_style_images_base64 =
      if v.visual_style_images_base64.isEmpty then r2.visual_style_images_base64
      else some v.visual_style_images_base64) ∧
    (∀ (venv : VisualsEnv) (r2x : Stage2Result),
      (mergeVisuals r2x
        (generateAllVisuals venv r2x ⟨true, false, false⟩).1).concept_art_base64 =
        r2x.concept_art_base64 ∧
      (mergeVisuals r2x
        (generateAllVisuals venv r2x ⟨true, false, false⟩).1).character_profiles =
        r2x.character_profiles) := by
  refine ⟨mergeVisuals_concept_art r2 v, mergeVisuals_movie_poster r2 v,
    mergeVisuals_character_profiles r2 v, ?_, mergeVisuals_comparable_titles_visuals r2 v,
    mergeVisuals_visual_style_images r2 v, ?_⟩
  · intro profile hmem hfind
    rw [mergeVisuals_character_profiles]
    by_cases hemp : v.character_portraits.isEmpty
    · rw [if_pos hemp]
      exact hmem
    · rw [if_neg hemp]
      refine List.mem_map.mpr ⟨profile, hmem, ?_⟩
      rw [hfind]
  · intro venv r2x
    have hca : (generateAllVisuals venv r2x ⟨true, false, false⟩).1.concept_art_base64 =
        "" := by
      simp [generateAllVisuals]
    have hpt : (generateAllVisuals venv r2x ⟨true, false, false⟩).1.character_portraits =
        [] := by
      simp [generateAllVisuals]
    constructor
    · rw [mergeVisuals_concept_art, hca]
      simp
    · rw [mergeVisuals_character_profiles, hpt]
      simp

/-- Witness for `visual_merge_field_level` at concrete data: a poster-only
bundle patches the poster and leaves concept art, portraits, and arrays
untouched. -/
theorem visual_merge_field_level_witness :
    (mergeVisuals sampleStage2 ⟨"", "NEWPOSTER", [], [], []⟩).movie_poster_base64 =
      some "NEWPOSTER" ∧
    (mergeVisuals sampleStage2 ⟨"", "NEWPOSTER", [], [], []⟩).concept_art_base64 = none ∧
    (mergeVisuals sampleStage2
      (generateAllVisuals okVisualsEnv sampleStage2
        ⟨true, false, false⟩).1).character_profiles = [sampleCharA, sampleCharB] := by
  have h := visual_merge_field_level sampleStage2 ⟨"", "NEWPOSTER", [], [], []⟩
  refine ⟨?_, ?_, ?_⟩
  · rw [h.2.1]
    simp
  · rw [h.1]
    simp [sampleStage2]
  · rw [(h.2.2.2.2.2.2 okVisualsEnv sampleStage2).2]
    rfl

/-! ## Claim C2 -/

/-- A project whose stage-2 result already holds the requested movie
poster, with all three stages complete. -/
def posterDoneProject : Project :=
  { createNewProject with
    script := "A man enters."
    stage1Result := some sampleStage1
    stage2Result := some { sampleStage2 with movie_poster_base64 := some "OLDPOSTER" }
    stage3Result := some sampleStage3
    fullScenes := some sampleScenes }

/-- The App state resuming `posterDoneProject` with only the poster
requested. -/
def posterDoneState : AppState :=
  ⟨.PAUSED, none, some posterDoneProject, "A man enters.", some ⟨true, false, false⟩⟩

/-- C2 (evaluation of the code at the failing input): resuming a Project
whose requested stage-2 visual field (`movie_poster_base64`) is already
populated, with `{poster: true}` stored, nonetheless re-runs the visuals
step — the source computes its `hasSomeVisuals` check but never uses it, so
`needVisuals` alone decides.  This contradicts the claim that the visuals
step runs only when the corresponding stage-2 visual fields are not already
populated. -/
theorem visuals_rerun_despite_populated :
    (∃ r2, posterDoneProject.stage2Result = some r2 ∧
      r2.movie_poster_base64 = some "OLDPOSTER") ∧
    posterDoneState.visualOptions = some ⟨true, false, false⟩ ∧
    GatewayOp.visuals ∈
      (handleResumeAnalysis okEnv posterDoneState neverStop).trace := by
  refine ⟨⟨{ sampleStage2 with movie_poster_base64 := some "OLDPOSTER" }, rfl, rfl⟩,
    rfl, ?_⟩
  decide

/-! ## Step-count bounds and pause facts for an arbitrary stop schedule -/

theorem stage3Part_steps_le (env : Env) (stop : Nat → Bool) (acc : RunAcc) (k : Nat)
    (hk : stop k = true) (hacc : acc.steps ≤ k) :
    (stage3Part env stop acc).steps ≤ k := by
  rcases h3 : acc.project.stage3Result with _ | v3
  · cases hstp : stop acc.steps
    · have hlt : acc.steps < k := by
        rcases Nat.lt_or_ge acc.steps k with h | h
        · exact h
        · have heq : acc.steps = k := Nat.le_antisymm hacc h
          rw [heq] at hstp
          rw [hstp] at hk
          exact Bool.noConfusion hk
      rcases he3 : env.stage3 with e3 | w3
      · rw [stage3Part_fail3 env stop acc e3 h3 hstp he3]
        exact hacc
      · rcases hsc : env.extractScenes with esc | wsc
        · rw [stage3Part_failScenes env stop acc w3 esc h3 hstp he3 hsc]
          exact hacc
        · rw [stage3Part_ok env stop acc w3 wsc h3 hstp he3 hsc]
          exact hlt
    · rw [stage3Part_stop env stop acc h3 hstp]
      exact hacc
  · rw [stage3Part_skip env stop acc v3 h3]
    exact hacc

theorem visualsPart_steps_le (env : Env) (opts : Option VisualOptions)
    (stop : Nat → Bool) (acc : RunAcc) (k : Nat)
    (hk : stop k = true) (hacc : acc.steps ≤ k) :
    (visualsPart env opts stop acc).steps ≤ k := by
  rcases opts with _ | o
  · rw [visualsPart_none]
    exact stage3Part_steps_le env stop acc k hk hacc
  · cases hf : (o.poster || o.concept || o.characters)
    · rw [visualsPart_noFlags env o stop acc hf]
      exact stage3Part_steps_le env stop acc k hk hacc
    · cases hstp : stop acc.steps
      · have hlt : acc.steps < k := by
          rcases Nat.lt_or_ge acc.steps k with h | h
          · exact h
          · have heq : acc.steps = k := Nat.le_antisymm hacc h
            rw [heq] at hstp
            rw [hstp] at hk
            exact Bool.noConfusion hk
        rcases h2 : acc.project.stage2Result with _ | r2
        · have hrw : visualsPart env (some o) stop acc = stage3Part env stop acc := by
            rw [visualsPart]
            simp [visualsStep, hf, hstp, h2]
          rw [hrw]
          exact stage3Part_steps_le env stop acc k hk hacc
        · rw [visualsPart_run env o stop acc r2 hf hstp h2]
          exact stage3Part_steps_le env stop _ k hk hlt
      · rw [visualsPart_stop env o stop acc hf hstp]
        exact hacc

theorem stage2Part_steps_le (env : Env) (opts : Option VisualOptions)
    (stop : Nat → Bool) (acc : RunAcc) (k : Nat)
    (hk : stop k = true) (hacc : acc.steps ≤ k) :
    (stage2Part env opts stop acc).steps ≤ k := by
  rcases h2 : acc.project.stage2Result with _ | v2
  · cases hstp : stop acc.steps
    · have hlt : acc.steps < k := by
        rcases Nat.lt_or_ge acc.steps k with h | h
        · exact h
        · have heq : acc.steps = k := Nat.le_antisymm hacc h
          rw [heq] at hstp
          rw [hstp] at hk
          exact Bool.noConfusion hk
      rcases he2 : env.stage2 with e2 | w2
      · rw [stage2Part_fail env opts stop acc e2 h2 hstp he2]
        exact hacc
      · rw [stage2Part_ok env opts stop acc w2 h2 hstp he2]
        exact visualsPart_steps_le env opts stop _ k hk hlt
    · rw [stage2Part_stop env opts stop acc h2 hstp]
      exact hacc
  · rw [stage2Part_skip env opts stop acc v2 h2]
    exact visualsPart_steps_le env opts stop acc k hk hacc

theorem runPipeline_steps_le (env : Env) (opts : Option VisualOptions)
    (stop : Nat → Bool) (acc : RunAcc) (k : Nat)
    (hk : stop k = true) (hacc : acc.steps ≤ k) :
    (runPipeline env opts stop acc).steps ≤ k := by
  rcases h1 : acc.project.stage1Result with _ | v1
  · cases hstp : stop acc.steps
    · have hlt : acc.steps < k := by
        rcases Nat.lt_or_ge acc.steps k with h | h
        · exact h
        · have heq : acc.steps = k := Nat.le_antisymm hacc h
          rw [heq] at hstp
          rw [hstp] at hk
          exact Bool.noConfusion hk
      rcases he1 : env.stage1 with e1 | w1
      · rw [runPipeline_fail1 env opts stop acc e1 h1 hstp he1]
        exact hacc
      · rw [runPipeline_ok1 env opts stop acc w1 h1 hstp he1]
        exact stage2Part_steps_le env opts stop _ k hk hlt
    · rw [runPipeline_stop1 env opts stop acc h1 hstp]
      exact hacc
  · rw [runPipeline_skip1 env opts stop acc v1 h1]
    exact stage2Part_steps_le env opts stop acc k hk hacc

theorem stage3Part_pause (env : Env) (stop : Nat → Bool) (acc : RunAcc)
    (h : (stage3Part env stop acc).status = .PAUSED) :
    stop ((stage3Part env stop acc).steps) = true ∧
    (stage3Part env stop acc).currentProject = some acc.project := by
  rcases h3 : acc.project.stage3Result with _ | v3
  · cases hstp : stop acc.steps
    · rcases he3 : env.stage3 with e3 | w3
      · rw [stage3Part_fail3 env stop acc e3 h3 hstp he3] at h
        simp [errorResult] at h
      · rcases hsc : env.extractScenes with esc | wsc
        · rw [stage3Part_failScenes env stop acc w3 esc h3 hstp he3 hsc] at h
          simp [errorResult] at h
        · rw [stage3Part_ok env stop acc w3 wsc h3 hstp he3 hsc] at h
          simp at h
    · rw [stage3Part_stop env stop acc h3 hstp]
      exact ⟨hstp, rfl⟩
  · rw [stage3Part_skip env stop acc v3 h3] at h
    simp at h

theorem visualsPart_pause (env : Env) (opts : Option VisualOptions)
    (stop : Nat → Bool) (acc : RunAcc)
    (h : (visualsPart env opts stop acc).status = .PAUSED) :
    stop ((visualsPart env opts stop acc).steps) = true ∧
    ∃ q, (visualsPart env opts stop acc).currentProject = some q ∧
      q.stage1Result = acc.project.stage1Result ∧
      (∀ v, acc.project.stage2Result = some v → q.stage2Result.isSome) ∧
      q.stage3Result = acc.project.stage3Result ∧
      q.fullScenes = acc.project.fullScenes := by
  rcases opts with _ | o
  · rw [visualsPart_none] at h ⊢
    obtain ⟨hstp, hcp⟩ := stage3Part_pause env stop acc h
    exact ⟨hstp, acc.project, hcp, rfl, fun v hv => by simp [hv], rfl, rfl⟩
  · cases hf : (o.poster || o.concept || o.characters)
    · rw [visualsPart_noFlags env o stop acc hf] at h ⊢
      obtain ⟨hstp, hcp⟩ := stage3Part_pause env stop acc h
      exact ⟨hstp, acc.project, hcp, rfl, fun v hv => by simp [hv], rfl, rfl⟩
    · cases hstp : stop acc.steps
      · rcases h2 : acc.project.stage2Result with _ | r2
        · have hrw : visualsPart env (some o) stop acc = stage3Part env stop acc := by
            rw [visualsPart]
            simp [visualsStep, hf, hstp, h2]
          rw [hrw] at h ⊢
          obtain ⟨hstp2, hcp⟩ := stage3Part_pause env stop acc h
          refine ⟨hstp2, acc.project, hcp, rfl, ?_, rfl, rfl⟩
          intro v hv
          exact nomatch hv
        · rw [visualsPart_run env o stop acc r2 hf hstp h2] at h ⊢
          obtain ⟨hstp2, hcp⟩ := stage3Part_pause env stop _ h
          refine ⟨hstp2, _, hcp, rfl, fun v hv => by simp, rfl, rfl⟩
      · rw [visualsPart_stop env o stop acc hf hstp]
        exact ⟨hstp, acc.project, rfl, rfl, fun v hv => by simp [hv], rfl, rfl⟩

theorem stage2Part_pause (env : Env) (opts : Option VisualOptions)
    (stop : Nat → Bool) (acc : RunAcc)
    (h : (stage2Part env opts stop acc).status = .PAUSED) :
    stop ((stage2Part env opts stop acc).steps) = true ∧
    ∃ q, (stage2Part env opts stop acc).currentProject = some q ∧
      q.stage1Result = acc.project.stage1Result ∧
      (∀ v, acc.project.stage2Result = some v → q.stage2Result.isSome) ∧
      q.stage3Result = acc.project.stage3Result ∧
      q.fullScenes = acc.project.fullScenes := by
  rcases h2 : acc.project.stage2Result with _ | v2
  · cases hstp : stop acc.steps
    · rcases he2 : env.stage2 with e2 | w2
      · rw [stage2Part_fail env opts stop acc e2 h2 hstp he2] at h
        simp [errorResult] at h
      · rw [stage2Part_ok env opts stop acc w2 h2 hstp he2] at h ⊢
        obtain ⟨hstp2, q, hcp, hq1, hq2, hq3, hqsc⟩ := visualsPart_pause env opts stop _ h
        refine ⟨hstp2, q, hcp, hq1, ?_, hq3, hqsc⟩
        intro v hv
        exact nomatch hv
    · rw [stage2Part_stop env opts stop acc h2 hstp]
      refine ⟨hstp, acc.project, rfl, rfl, ?_, rfl, rfl⟩
      intro v hv
      exact nomatch hv
  · rw [stage2Part_skip env opts stop acc v2 h2] at h ⊢
    obtain ⟨hstp2, q, hcp, hq1, hq2, hq3, hqsc⟩ := visualsPart_pause env opts stop acc h
    refine ⟨hstp2, q, hcp, hq1, ?_, hq3, hqsc⟩
    intro v hv
    exact hq2 v (h2.trans hv)

theorem runPipeline_pause (env : Env) (opts : Option VisualOptions)
    (stop : Nat → Bool) (acc : RunAcc)
    (h : (runPipeline env opts stop acc).status = .PAUSED) :
    stop ((runPipeline env opts stop acc).steps) = true ∧
    ∃ q, (runPipeline env opts stop acc).currentProject = some q ∧
      (∀ v, acc.project.stage1Result = some v → q.stage1Result = some v) ∧
      (∀ v, acc.project.stage2Result = some v → q.stage2Result.isSome) ∧
      (∀ v, acc.project.stage3Result = some v → q.stage3Result = some v) ∧
      (∀ v w, acc.project.stage3Result = some v → acc.project.fullScenes = some w →
        q.fullScenes = some w) := by
  rcases h1 : acc.project.stage1Result with _ | v1
  · cases hstp : stop acc.steps
    · rcases he1 : env.stage1 with e1 | w1
      · rw [runPipeline_fail1 env opts stop acc e1 h1 hstp he1] at h
        simp [errorResult] at h
      · rw [runPipeline_ok1 env opts stop acc w1 h1 hstp he1] at h ⊢
        obtain ⟨hstp2, q, hcp, hq1, hq2, hq3, hqsc⟩ := stage2Part_pause env opts stop _ h
        refine ⟨hstp2, q, hcp, ?_, hq2, ?_, ?_⟩
        · intro v hv
          exact nomatch hv
        · intro v hv
          rw [hq3]
          exact hv
        · intro v w hv hw
          rw [hqsc]
          exact hw
    · rw [runPipeline_stop1 env opts stop acc h1 hstp]
      refine ⟨hstp, acc.project, rfl, ?_, ?_, ?_, ?_⟩
      · intro v hv
        exact nomatch hv
      · intro v hv
        simp [hv]
      · intro v hv
        exact hv
      · intro v w hv hw
        exact hw
  · rw [runPipeline_skip1 env opts stop acc v1 h1] at h ⊢
    obtain ⟨hstp2, q, hcp, hq1, hq2, hq3, hqsc⟩ := stage2Part_pause env opts stop acc h
    refine ⟨hstp2, q, hcp, ?_, hq2, ?_, ?_⟩
    · intro v hv
      rw [hq1]
      exact h1.trans hv
    · intro v hv
      rw [hq3]
      exact hv
    · intro v w hv hw
      rw [hqsc]
      exact hw

/-! ## Claim C5 -/

/-- Resuming under an arbitrary stop schedule is exactly the pipeline chain
on the stored project; `handleResumeAnalysis` clears the flag synchronously
before the run, so the effective schedule is false at boundary 0. -/
theorem handleResume_eq_runPipeline_sched (env : Env) (s : AppState) (p : Project)
    (stop : Nat → Bool)
    (hp : s.currentProject = some p) (hs : isBlank s.scriptToAnalyze = false) :
    handleResumeAnalysis env s stop =
      runPipeline env s.visualOptions (fun n => decide (0 < n) && stop n)
        ⟨p, 0, [], []⟩ := by
  simp only [handleResumeAnalysis, hp, executeAnalysis, hs, if_true,
    Bool.false_eq_true, if_false]

/-- C5 (corrected): `requestStop()` is cooperative, with two amendments to
the claim.  (a) The flag is read only at stage boundaries: if the schedule
sets the flag at boundary `k > 0`, the run performs at most `k` stage steps
— no further Gateway stage call starts once the flag is observed, and the
in-flight step (modelled as atomic) runs to completion.  (b) If the run
does halt with status `PAUSED`, then the flag really was set at the halting
boundary and every stage result completed so far is preserved (stage 1 and
the stage-3 pair verbatim, stage 2 possibly enriched by the visuals merge).
However — contrary to the claim's "the run halts with status paused" — a
flag set during the *final* stage step is never observed: src/App.tsx
line 284 sets `COMPLETE` without re-checking the flag (see the
counterexample `stop_last_step_counterexample`). -/
theorem requestStop_cooperative (env : Env) (s : AppState) (p : Project)
    (stop : Nat → Bool)
    (hp : s.currentProject = some p) (hs : isBlank s.scriptToAnalyze = false) :
    (∀ k, 0 < k → stop k = true → (handleResumeAnalysis env s stop).steps ≤ k) ∧
    ((handleResumeAnalysis env s stop).status = .PAUSED →
      0 < (handleResumeAnalysis env s stop).steps ∧
      stop ((handleResumeAnalysis env s stop).steps) = true ∧
      ∃ q, (handleResumeAnalysis env s stop).currentProject = some q ∧
        (∀ v, p.stage1Result = some v → q.stage1Result = some v) ∧
        (∀ v, p.stage2Result = some v → q.stage2Result.isSome) ∧
        (∀ v, p.stage3Result = some v → q.stage3Result = some v) ∧
        (∀ v w, p.stage3Result = some v → p.fullScenes = some w →
          q.fullScenes = some w)) := by
  have heq := handleResume_eq_runPipeline_sched env s p stop hp hs
  constructor
  · intro k hk0 hkt
    rw [heq]
    refine runPipeline_steps_le env s.visualOptions _ _ k ?_ (Nat.zero_le k)
    simp [hk0, hkt]
  · intro hpaused
    rw [heq] at hpaused ⊢
    obtain ⟨hstp, q, hcp, hq1, hq2, hq3, hqsc⟩ :=
      runPipeline_pause env s.visualOptions _ _ hpaused
    simp only [Bool.and_eq_true, decide_eq_true_eq] at hstp
    exact ⟨hstp.1, hstp.2, q, hcp, hq1, hq2, hq3, hqsc⟩

/-- Witness for `requestStop_cooperative`: resuming the stage-1-done sample
project under a schedule that sets the flag at boundary 1 performs at most
one stage step, and indeed exactly one. -/
theorem requestStop_cooperative_witness :
    (handleResumeAnalysis okEnv resumeSampleState (fun n => decide (1 ≤ n))).steps ≤ 1 ∧
    0 < (handleResumeAnalysis okEnv resumeSampleState (fun n => decide (1 ≤ n))).steps := by
  have h := requestStop_cooperative okEnv resumeSampleState resumeSampleProject
    (fun n => decide (1 ≤ n)) rfl (by decide)
  exact ⟨h.1 1 (by decide) (by decide), (h.2 (by decide)).1⟩

/-- An idle App state holding a fresh project seeded with a short script:
all three stage fields null, no visual options chosen. -/
def freshRunState : AppState :=
  ⟨.IDLE, none, some { createNewProject with script := "A man enters." },
    "A man enters.", none⟩

/-- C5 counterexample: a flag set at boundary 3 — i.e. while the third and
final stage step (the stage-3 pair) is in flight — is never observed: the
run performs exactly 3 steps and halts with status `COMPLETE`, not
`PAUSED`, because src/App.tsx line 284 sets `COMPLETE` without re-checking
the stop flag after the last stage. -/
theorem stop_last_step_counterexample :
    (fun n => decide (3 ≤ n)) 3 = true ∧
    (handleResumeAnalysis okEnv freshRunState (fun n => decide (3 ≤ n))).steps = 3 ∧
    (handleResumeAnalysis okEnv freshRunState (fun n => decide (3 ≤ n))).status =
      .COMPLETE ∧
    (handleResumeAnalysis okEnv freshRunState (fun n => decide (3 ≤ n))).status ≠
      .PAUSED := by
  refine ⟨by decide, by decide, by decide, by decide⟩

end Filmset
